import Mathlib

/-!
Verification development for the dvc-render Vega template-filling engine.

The Python source is shallowly embedded in Lean:
  * JSON documents become the inductive `DvcRender.Json` (numbers are exact
    rationals, which covers every literal occurring in the repository).
  * Python dicts of datapoints become association lists `Datapoint`.
  * Fallible code returns `Except RenderError`; an untyped Python
    `IndexError` / `TypeError` is modelled by the dedicated error values
    `RenderError.indexError` / `RenderError.typeError`.
  * The dict-based `Template` class used by `vega.py` (with `reset`,
    tree-walking `fill_anchor` and the `BadTemplateError` construction check)
    is not present under the repository sources (only its callers and tests
    are), so it is modelled from the specification; every such definition
    carries a doc comment starting with "Modelled from the spec:".
    All other definitions are translated from the repository source
    (`src/dvc_render/vega.py` and `src/dvc_render/vega_templates.py`).
-/

namespace DvcRender

/-- A JSON document: the tree of maps, sequences and scalars over which
templates and datapoints are defined.  Numbers are exact rationals. -/
inductive Json where
  | null : Json
  | bool (b : Bool) : Json
  | num (q : Rat) : Json
  | str (s : String) : Json
  | arr (xs : List Json) : Json
  | obj (kvs : List (String × Json)) : Json

/-- A datapoint: a flat mapping of field name to value, as an association
list (modelling a Python dict, whose keys are unique). -/
abbrev Datapoint := List (String × Json)

/-- First value bound to `key`, modelling Python `dict.get(key)`. -/
def getVal : Datapoint → String → Option Json
  | [], _ => none
  | (k, v) :: rest, key => if k = key then some v else getVal rest key

/-- Python `key in dict`. -/
def hasKey (dp : Datapoint) (key : String) : Bool :=
  (getVal dp key).isSome

/-- Python `dict[key] = v`: replace the first binding of `key` in place,
or append a new binding at the end (dict insertion order). -/
def setVal : Datapoint → String → Json → Datapoint
  | [], key, v => [(key, v)]
  | (k, w) :: rest, key, v =>
    if k = key then (k, v) :: rest else (k, w) :: setVal rest key v

/-- Python `dict.pop(key, None)`: remove the binding of `key` if present. -/
def eraseKey : Datapoint → String → Datapoint
  | [], _ => []
  | (k, v) :: rest, key =>
    if k = key then eraseKey rest key else (k, v) :: eraseKey rest key

@[simp] theorem getVal_setVal_self (dp : Datapoint) (k : String) (v : Json) :
    getVal (setVal dp k v) k = some v := by
  induction dp with
  | nil => simp [setVal, getVal]
  | cons hd tl ih =>
    obtain ⟨k0, v0⟩ := hd
    by_cases h : k0 = k <;> simp [setVal, getVal, h, ih]

theorem getVal_setVal_other (dp : Datapoint) (k k' : String) (v : Json)
    (hne : k' ≠ k) : getVal (setVal dp k v) k' = getVal dp k' := by
  induction dp with
  | nil => simp [setVal, getVal, Ne.symm hne]
  | cons hd tl ih =>
    obtain ⟨k0, v0⟩ := hd
    by_cases h : k0 = k
    · subst h
      simp [setVal, getVal, Ne.symm hne]
    · by_cases h' : k0 = k' <;> simp [setVal, getVal, h, h', hne, ih]

@[simp] theorem getVal_eraseKey_self (dp : Datapoint) (k : String) :
    getVal (eraseKey dp k) k = none := by
  induction dp with
  | nil => simp [eraseKey, getVal]
  | cons hd tl ih =>
    obtain ⟨k0, v0⟩ := hd
    by_cases h : k0 = k <;> simp [eraseKey, getVal, h, ih]

theorem getVal_eraseKey_other (dp : Datapoint) (k k' : String)
    (hne : k' ≠ k) : getVal (eraseKey dp k) k' = getVal dp k' := by
  induction dp with
  | nil => simp [eraseKey, getVal]
  | cons hd tl ih =>
    obtain ⟨k0, v0⟩ := hd
    by_cases h : k0 = k
    · subst h
      simp [eraseKey, getVal, Ne.symm hne, ih]
    · by_cases h' : k0 = k' <;> simp [eraseKey, getVal, h, h', hne, ih]

/-! ## String helpers

Python string operations used by the engine, re-implemented over `List Char`
so that they are fully executable and kernel-reducible. -/

/-- Is `p` a (character-wise) prefix of `l`? -/
def charsHavePre (pat l : List Char) : Bool :=
  match pat, l with
  | [], _ => true
  | _ :: _, [] => false
  | p :: ps, c :: cs => p = c && charsHavePre ps cs

/-- Does `pat` occur as a contiguous run inside `l`? -/
def charsHaveRun (pat : List Char) : List Char → Bool
  | [] => decide (pat = [])
  | c :: rest => charsHavePre pat (c :: rest) || charsHaveRun pat rest

/-- Replace every (non-overlapping, left-to-right) occurrence of `pat` inside
a character list by `rep`, modelling Python `str.replace` for a non-empty
pattern.  Structural recursion on a fuel argument (instantiated with the
list length, which bounds the number of steps) keeps it kernel-reducible. -/
def replaceCharsF (pat rep : List Char) : Nat → List Char → List Char
  | _, [] => []
  | 0, l => l
  | fuel + 1, c :: rest =>
    if charsHavePre pat (c :: rest) && !(decide (pat = [])) then
      rep ++ replaceCharsF pat rep fuel ((c :: rest).drop pat.length)
    else
      c :: replaceCharsF pat rep fuel rest

/-- Python `haystack.replace(pat, rep)` (for the non-empty patterns used by
the engine). -/
def strReplace (haystack pat rep : String) : String :=
  String.mk (replaceCharsF pat.data rep.data haystack.data.length haystack.data)

/-- Python `pat in haystack` (substring containment). -/
def strContainsSub (haystack pat : String) : Bool :=
  charsHaveRun pat.data haystack.data

/-- Lexicographic (code-point) order on character lists, as Python compares
strings. -/
def charListLe (xs ys : List Char) : Bool :=
  match xs, ys with
  | [], _ => true
  | _ :: _, [] => false
  | x :: xt, y :: yt => if x = y then charListLe xt yt else decide (x < y)

/-- Python string `<=`. -/
def strLe (a b : String) : Bool := charListLe a.data b.data

/-- Insert a string into an ascending list of strings (helper for
`sortStrings`). -/
def insertSorted (s : String) : List String → List String
  | [] => [s]
  | t :: ts => if strLe s t then s :: t :: ts else t :: insertSorted s ts

/-- Python `list.sort()` on strings: stable ascending sort. -/
def sortStrings : List String → List String
  | [] => []
  | s :: ss => insertSorted s (sortStrings ss)

/-- Distinct elements of `l` in first-occurrence order, given the already
`seen` ones; models collecting values into a Python `set`. -/
def dedupSeen [DecidableEq α] (seen : List α) : List α → List α
  | [] => []
  | a :: as =>
    if seen.contains a then dedupSeen seen as else a :: dedupSeen (a :: seen) as

/-- Distinct elements of `l` (first-occurrence order); `(dedup l).length`
models the size of the Python set built from `l`. -/
def dedup [DecidableEq α] (l : List α) : List α :=
  dedupSeen [] l

/-- Last component of a path (`pathlib.PurePath.name` for the simple
relative paths that occur here). -/
def pathBasename (p : String) : String :=
  String.mk ((p.data.reverse.takeWhile (fun c => decide (c ≠ Char.ofNat 47))).reverse)

/-- Leading directory part of a path, including the final separator
(empty when the path has no separator). -/
def pathDirPart (p : String) : String :=
  String.mk ((p.data.reverse.dropWhile (fun c => decide (c ≠ Char.ofNat 47))).reverse)

/-- Index of the last `.` in the basename satisfying CPython pathlib's
suffix rule `0 < i < len(name) - 1`, if any. -/
def lastSuffixDot (name : List Char) : Option Nat :=
  let idxs := (List.range name.length).filter
    (fun i => decide (name.getD i (Char.ofNat 0) = Char.ofNat 46) &&
      decide (0 < i) && decide (i < name.length - 1))
  idxs.getLast?

/-- Python `pathlib.PurePath.with_suffix(".json")`: replace the final
extension of the last path component (or append when there is none). -/
def withSuffixJson (p : String) : String :=
  let name := pathBasename p
  let newName :=
    match lastSuffixDot name.data with
    | some i => String.mk (name.data.take i) ++ ".json"
    | none => name ++ ".json"
  pathDirPart p ++ newName

/-! ## Anchors and the modelled Template -/

/-- ASCII uppercase of one character (anchor names are ASCII). -/
def upperChar (c : Char) : Char :=
  if Char.ofNat 97 <= c && c <= Char.ofNat 122 then Char.ofNat (c.toNat - 32) else c

/-- Python `str.upper()` for the ASCII anchor names used by the engine. -/
def strToUpper (s : String) : String :=
  String.mk (s.data.map upperChar)

/-- `Template.anchor(name)` from `vega_templates.py`: the sentinel token
`<DVC_METRIC_{NAME}>` with the name uppercased. -/
def anchorOf (name : String) : String :=
  "<DVC_METRIC_" ++ strToUpper name ++ ">"

/-- `Template.escape_special_characters` from `vega_templates.py`: escape
`.`, `[` and `]` with a backslash, in that order. -/
def escape_special_characters (value : String) : String :=
  strReplace (strReplace (strReplace value "." "\\.") "[" "\\[") "]" "\\]"

/-- The typed and untyped failures surfaced by the engine.  `indexError` and
`typeError` model untyped Python `IndexError`/`TypeError` crashes. -/
inductive RenderError where
  | noFieldInData (field : String) : RenderError
  | badTemplate : RenderError
  | templateNotFound (name : String) : RenderError
  | contentMismatch (templateName : String) (path : String) : RenderError
  | indexError : RenderError
  | typeError : RenderError
  deriving DecidableEq, Repr

deriving instance DecidableEq for Except

/-- Replace one string leaf: an exact match of the anchor token becomes
`value` (structural injection); when `value` is itself a string, in-string
occurrences of the token are substituted as well. -/
def fillLeaf (token : String) (value : Json) (s : String) : Json :=
  if s = token then value
  else
    match value with
    | Json.str vs => Json.str (strReplace s token vs)
    | _ => Json.str s

mutual
/-- Modelled from the spec: `Template.fill_anchor`'s recursive walk of the
content tree (the dict-based Template used by `vega.py` is absent from the
sources); replaces every string leaf matching the anchor token. -/
def fillAnchorJ (token : String) (value : Json) : Json → Json
  | Json.null => Json.null
  | Json.bool b => Json.bool b
  | Json.num q => Json.num q
  | Json.str s => fillLeaf token value s
  | Json.arr xs => Json.arr (fillAnchorL token value xs)
  | Json.obj kvs => Json.obj (fillAnchorO token value kvs)

/-- Walk a JSON sequence for `fillAnchorJ`. -/
def fillAnchorL (token : String) (value : Json) : List Json → List Json
  | [] => []
  | x :: xs => fillAnchorJ token value x :: fillAnchorL token value xs

/-- Walk a JSON map for `fillAnchorJ`. -/
def fillAnchorO (token : String) (value : Json) :
    List (String × Json) → List (String × Json)
  | [] => []
  | (k, v) :: kvs => (k, fillAnchorJ token value v) :: fillAnchorO token value kvs
end

mutual
/-- Modelled from the spec: `Template.has_anchor`'s recursive search of the
content tree (the dict-based Template used by `vega.py` is absent from the
sources); true when the anchor token occurs in some string leaf. -/
def hasAnchorJ (token : String) : Json → Bool
  | Json.null => false
  | Json.bool _ => false
  | Json.num _ => false
  | Json.str s => strContainsSub s token
  | Json.arr xs => hasAnchorL token xs
  | Json.obj kvs => hasAnchorO token kvs

/-- Walk a JSON sequence for `hasAnchorJ`. -/
def hasAnchorL (token : String) : List Json → Bool
  | [] => false
  | x :: xs => hasAnchorJ token x || hasAnchorL token xs

/-- Walk a JSON map for `hasAnchorJ`. -/
def hasAnchorO (token : String) : List (String × Json) → Bool
  | [] => false
  | (_, v) :: kvs => hasAnchorJ token v || hasAnchorO token kvs
end

/-- Modelled from the spec: the dict-based `Template` used by `vega.py`
(absent from the sources): a named document with an immutable `original`
and a mutable working `content`. -/
structure Template where
  original : Json
  content : Json
  name : String

namespace Template

/-- Modelled from the spec: `Template.reset()` restores the working content
to the original, immutable source document. -/
def reset (t : Template) : Template :=
  { t with content := t.original }

/-- Modelled from the spec: `Template.fill_anchor(name, value)` replaces the
anchor token in the working content; the stored original is never mutated. -/
def fill_anchor (t : Template) (name : String) (value : Json) : Template :=
  { t with content := fillAnchorJ (anchorOf name) value t.content }

/-- Modelled from the spec: `Template.has_anchor(name)`. -/
def has_anchor (t : Template) (name : String) : Bool :=
  hasAnchorJ (anchorOf name) t.content

/-- Whether a document is map-shaped. -/
def isMap : Json → Bool
  | Json.obj _ => true
  | _ => false

/-- Modelled from the spec: `Template.__init__` — constructing a template
whose supplied content is present but not a map-shaped document fails with
`BadTemplate`; otherwise the supplied (or default) content becomes both the
immutable original and the working content. -/
def create (content : Option Json) (defaultContent : Json) (name : String) :
    Except RenderError Template :=
  match content with
  | some c =>
    if isMap c then Except.ok ⟨c, c, name⟩ else Except.error RenderError.badTemplate
  | none => Except.ok ⟨defaultContent, defaultContent, name⟩

/-- `Template.check_field_exists` from `vega_templates.py`: fail with
`NoFieldInData` when no datapoint contains the given key. -/
def check_field_exists (data : List Datapoint) (field : String) :
    Except RenderError Unit :=
  if data.any (fun row => hasKey row field) then Except.ok ()
  else Except.error (RenderError.noFieldInData field)

end Template

/-! ## Palettes and optional-anchor mappings (`vega.py`) -/

/-- `VegaRenderer._optional_anchor_ranges` from `vega.py.__init__`: the fixed
palettes (7 stroke-dash patterns, 7 colors, 4 shapes), with the Python
`dict.get(name, [])` default. -/
def optional_anchor_ranges (name : String) : List Json :=
  if name = "stroke_dash" then
    [Json.arr [Json.num 1, Json.num 0], Json.arr [Json.num 8, Json.num 8],
     Json.arr [Json.num 8, Json.num 4], Json.arr [Json.num 4, Json.num 4],
     Json.arr [Json.num 4, Json.num 2], Json.arr [Json.num 2, Json.num 1],
     Json.arr [Json.num 1, Json.num 1]]
  else if name = "color" then
    [Json.str "#945dd6", Json.str "#13adc7", Json.str "#f46837",
     Json.str "#48bb78", Json.str "#4299e1", Json.str "#ed8936",
     Json.str "#f56565"]
  else if name = "shape" then
    [Json.str "square", Json.str "circle", Json.str "triangle",
     Json.str "diamond"]
  else []

/-- The range-assignment loop of `_get_optional_anchor_mapping`: pop values
from a working copy of the palette, refilling it from the full palette when
exhausted; `none` models the `IndexError` of popping from an empty list
(empty palette with a non-empty domain). -/
def anchorRangeLoop {α : Type} (full : List α) : Nat → List α → Option (List α)
  | 0, _ => some []
  | n + 1, rem =>
    match (if rem.isEmpty then full else rem) with
    | [] => none
    | v :: rest => (anchorRangeLoop full n rest).map (fun r => v :: r)

/-- `VegaRenderer._get_optional_anchor_mapping` from `vega.py`: the
field/scale(+legend) encoding for `color` / `stroke_dash` / `shape`. -/
def get_optional_anchor_mapping (field name : String) (domain : List String) :
    Except RenderError Json :=
  let fullRange := optional_anchor_ranges name
  match anchorRangeLoop fullRange domain.length fullRange with
  | none => Except.error RenderError.indexError
  | some range =>
    let legend : List (String × Json) :=
      if name ≠ "color" then
        [("legend", Json.obj [("symbolFillColor", Json.str "transparent"),
                              ("symbolStrokeColor", Json.str "grey")])]
      else []
    Except.ok (Json.obj ([("field", Json.str field),
      ("scale", Json.obj [("domain", Json.arr (domain.map Json.str)),
                          ("range", Json.arr range)])] ++ legend))

/-! ## Series variation resolution (`vega.py`) -/

/-- One entry of `anchors_y_definitions`: a dict carrying `filename` and
`field` (either may be missing, modelling `defn.get(key, None)`). -/
structure YDef where
  filename : Option String
  field : Option String
  deriving DecidableEq, Repr

/-- `FILENAME_FIELD` from `vega.py`. -/
def FILENAME_FIELD : List String := ["filename", "field"]

/-- Distinct `filename` values across the definitions (a Python set). -/
def filenameValues (defs : List YDef) : List (Option String) :=
  dedup (defs.map YDef.filename)

/-- Distinct `field` values across the definitions (a Python set). -/
def fieldValues (defs : List YDef) : List (Option String) :=
  dedup (defs.map YDef.field)

/-- Distinct `filename::field` composites, with missing entries defaulting
to the empty string (`defn.get(FILENAME, "")`). -/
def concatValues (defs : List YDef) : List String :=
  dedup (defs.map (fun d => d.filename.getD "" ++ "::" ++ d.field.getD ""))

/-- `VegaRenderer._get_domain` from `vega.py`: the composite values when two
keys vary, else the value set of `varied_keys[0]`.  Indexing the empty
`varied_keys` list is the untyped `IndexError`; sorting a value set that
mixes `None` with strings is the untyped `TypeError` of Python `sort`. -/
def get_domain (variedKeys : List String) (fnVals fdVals : List (Option String))
    (ccVals : List String) : Except RenderError (List String) :=
  if variedKeys.length = 2 then Except.ok (sortStrings ccVals)
  else
    match variedKeys with
    | [] => Except.error RenderError.indexError
    | k :: _ =>
      let vals := if k = "filename" then fnVals else fdVals
      if vals.all Option.isSome then Except.ok (sortStrings (vals.filterMap id))
      else Except.error RenderError.typeError

/-- `VegaRenderer._collect_variations` from `vega.py`: a dimension with more
than one distinct value (over `filename` then `field`, in that order) joins
`varied_keys`; the domain is computed by `get_domain`. -/
def collect_variations (defs : List YDef) :
    List String × Except RenderError (List String) :=
  let fnVals := filenameValues defs
  let fdVals := fieldValues defs
  let variedKeys :=
    (if fnVals.length = 1 then [] else ["filename"]) ++
    (if fdVals.length = 1 then [] else ["field"])
  (variedKeys, get_domain variedKeys fnVals fdVals (concatValues defs))

/-! ## Datapoint updates (`vega.py`) -/

/-- The string values of `datapoint.get(k)` for the given keys; `none`
models the `TypeError` Python raises when a value is missing or not a
string. -/
def joinedParts (dp : Datapoint) : List String → Option (List String)
  | [] => some []
  | k :: ks =>
    match getVal dp k with
    | some (Json.str s) => (joinedParts dp ks).map (fun ss => s :: ss)
    | _ => none

/-- `"::".join(datapoint.get(k) for k in keys)`. -/
def joinedValue (dp : Datapoint) (keys : List String) : Option String :=
  (joinedParts dp keys).map (String.intercalate "::")

/-- `VegaRenderer._update_datapoints`' per-datapoint body from `vega.py`:
with two varied keys, add the composite `filename::field` value and remove
both originals; otherwise remove the non-varying members of
`FILENAME_FIELD`. -/
def update_datapoint (variedKeys : List String) (dp : Datapoint) :
    Except RenderError Datapoint :=
  let toConcat := if variedKeys.length = 2 then variedKeys else []
  let toRemove :=
    if variedKeys.length = 2 then variedKeys
    else FILENAME_FIELD.filter (fun k => !(variedKeys.contains k))
  match (if toConcat.isEmpty then some dp
         else (joinedValue dp toConcat).map
           (fun s => setVal dp (String.intercalate "::" toConcat) (Json.str s))) with
  | none => Except.error RenderError.typeError
  | some dp1 => Except.ok (toRemove.foldl eraseKey dp1)

/-- Apply a fallible update to every list element, stopping at the first
failure (the shape of the `for datapoint in self.datapoints` loop). -/
def mapExcept (f : α → Except RenderError β) : List α → Except RenderError (List β)
  | [] => Except.ok []
  | a :: as =>
    match f a with
    | Except.error e => Except.error e
    | Except.ok b =>
      match mapExcept f as with
      | Except.error e => Except.error e
      | Except.ok bs => Except.ok (b :: bs)

/-- `VegaRenderer._update_datapoints` from `vega.py`: a no-op when
`varied_keys` is `None`, else every datapoint is updated. -/
def update_datapoints :
    Option (List String) → List Datapoint → Except RenderError (List Datapoint)
  | none, dps => Except.ok dps
  | some vk, dps => mapExcept (update_datapoint vk) dps

/-! ## Renderer properties and state -/

/-- The recognized renderer properties (`self.properties`), with absent keys
as `none`/`[]` (the `dict.get` defaults used by `vega.py`). -/
structure Properties where
  x : Option String := none
  y : Option String := none
  title : Option String := none
  x_label : Option String := none
  y_label : Option String := none
  data : Option Json := none
  anchors_y_definitions : List YDef := []
  anchor_revs : List String := []

/-- Python truthiness of `properties.get(key)` for a string-valued key. -/
def truthyStr : Option String → Bool
  | none => false
  | some s => !(decide (s = ""))

/-- One guarded check of the `strict` block: `if self.properties.get(k):`
(Python truthiness) followed by `check_field_exists`. -/
def check_if_truthy (dps : List Datapoint) (o : Option String) :
    Except RenderError Unit :=
  match o with
  | some s => if s = "" then Except.ok () else Template.check_field_exists dps s
  | none => Except.ok ()

/-- The `strict` block of `get_filled_template`: check `x` then `y` against
the datapoints when the property is set and non-empty. -/
def strict_check (dps : List Datapoint) (props : Properties) :
    Except RenderError Unit :=
  match check_if_truthy dps props.x with
  | Except.error e => Except.error e
  | Except.ok _ => check_if_truthy dps props.y

/-- The renderer's mutable state during one fill pass: the working template
content and the `_split_content` map of deferred anchors (keyed by anchor
token, as in `_set_split_content`). -/
structure RState where
  content : Json
  splitContent : List (String × Json)

/-- `self.template.fill_anchor(name, value)` acting on the state. -/
def RState.fill (st : RState) (name : String) (value : Json) : RState :=
  { st with content := fillAnchorJ (anchorOf name) value st.content }

/-- `VegaRenderer._set_split_content` from `vega.py`: record a deferred
anchor value under its token (values kept structured rather than
JSON-dumped to a string). -/
def RState.addSplit (st : RState) (name : String) (value : Json) : RState :=
  { st with splitContent := setVal st.splitContent (anchorOf name) value }

/-! ## Optional-anchor processing (`vega.py`) -/

/-- The candidate optional anchors of `_process_optional_anchors`, in source
order. -/
def optionalAnchorNames : List String :=
  ["color", "group_by_x", "group_by_y", "group_by", "pivot_field", "row",
   "shape", "stroke_dash", "zoom_and_pan"]

/-- `VegaRenderer._fill_optional_anchor` from `vega.py`: consume the anchor
from the pending list, then fill it unless it was requested for deferral. -/
def fill_optional_anchor (split opts : List String) (st : RState)
    (name : String) (value : Json) : List String × RState :=
  if !(opts.contains name) then (opts, st)
  else
    let opts2 := opts.erase name
    if split.contains name then (opts2, st) else (opts2, st.fill name value)

/-- `VegaRenderer._fill_optional_anchor_mapping` from `vega.py`: consume the
anchor, compute its field/scale encoding, then fill or defer it. -/
def fill_optional_anchor_mapping (split opts : List String) (st : RState)
    (field name : String) (domain : List String) :
    Except RenderError (List String × RState) :=
  if !(opts.contains name) then Except.ok (opts, st)
  else
    let opts2 := opts.erase name
    match get_optional_anchor_mapping field name domain with
    | Except.error e => Except.error e
    | Except.ok enc =>
      if split.contains name then Except.ok (opts2, st.addSplit name enc)
      else Except.ok (opts2, st.fill name enc)

/-- A grouping-list entry that may be a missing (`None`) property. -/
def optJsonStr : Option String → Json
  | some s => Json.str s
  | none => Json.null

/-- `VegaRenderer._fill_group_by` from `vega.py`: `group_by`, then
`group_by_x` (keys + x), then `group_by_y` (keys + y). -/
def fill_group_by (split opts : List String) (st : RState) (props : Properties)
    (groupedKeys : List String) : List String × RState :=
  let p1 := fill_optional_anchor split opts st "group_by"
    (Json.arr (groupedKeys.map Json.str))
  let p2 := fill_optional_anchor split p1.1 p1.2 "group_by_x"
    (Json.arr (groupedKeys.map Json.str ++ [optJsonStr props.x]))
  fill_optional_anchor split p2.1 p2.2 "group_by_y"
    (Json.arr (groupedKeys.map Json.str ++ [optJsonStr props.y]))

/-- The fixed interactive binding of `_fill_zoom_and_pan`. -/
def zoomAndPanValue : Json :=
  Json.obj [("name", Json.str "grid"), ("select", Json.str "interval"),
            ("bind", Json.str "scales")]

/-- `VegaRenderer._fill_zoom_and_pan` from `vega.py`. -/
def fill_zoom_and_pan (split opts : List String) (st : RState) :
    List String × RState :=
  if !(opts.contains "zoom_and_pan") then (opts, st)
  else
    let opts2 := opts.erase "zoom_and_pan"
    if split.contains "zoom_and_pan" then
      (opts2, st.addSplit "zoom_and_pan" zoomAndPanValue)
    else (opts2, st.fill "zoom_and_pan" zoomAndPanValue)

/-- `VegaRenderer._fill_color` from `vega.py`: the color mapping over the
`rev` field with the caller-supplied revision list as domain. -/
def fill_color (split opts : List String) (st : RState) (props : Properties) :
    Except RenderError (List String × RState) :=
  fill_optional_anchor_mapping split opts st "rev" "color" props.anchor_revs

/-- `VegaRenderer._process_single_source_plot` from `vega.py`: group by
`rev`, pivot on `datum.rev`, then fill every anchor still pending with an
empty map. -/
def process_single_source_plot (split opts : List String) (st : RState)
    (props : Properties) : RState :=
  let p1 := fill_group_by split opts st props ["rev"]
  let p2 := fill_optional_anchor split p1.1 p1.2 "pivot_field"
    (Json.str "datum.rev")
  p2.1.foldl (fun s a => s.fill a (Json.obj [])) p2.2

/-- An ASCII single-quote character as a string (kept out of literals). -/
def singleQuote : String := String.singleton (Char.ofNat 39)

/-- The `pivot_field` expression of `_fill_optional_multi_source_anchors`:
`datum.<key>` joined with a quoted `::` separator. -/
def pivotFieldExpr (groupedKeys : List String) : String :=
  String.intercalate (" + " ++ singleQuote ++ "::" ++ singleQuote ++ " + ")
    (groupedKeys.map (fun k => "datum." ++ k))

/-- `VegaRenderer._fill_optional_multi_source_anchors` from `vega.py`. -/
def fill_optional_multi_source_anchors (split opts : List String) (st : RState)
    (props : Properties) (variedKeys domain : List String) :
    Except RenderError (List String × RState) :=
  if opts.isEmpty then Except.ok (opts, st)
  else
    let groupedKeys := "rev" :: variedKeys
    let p1 := fill_group_by split opts st props groupedKeys
    let p2 := fill_optional_anchor split p1.1 p1.2 "pivot_field"
      (Json.str (pivotFieldExpr groupedKeys))
    let concatField := String.intercalate "::" variedKeys
    let p3 := fill_optional_anchor split p2.1 p2.2 "row"
      (Json.obj [("field", Json.str concatField)])
    if p3.1.isEmpty then Except.ok p3
    else
      match fill_optional_anchor_mapping split p3.1 p3.2 concatField
          "stroke_dash" domain with
      | Except.error e => Except.error e
      | Except.ok p4 =>
        fill_optional_anchor_mapping split p4.1 p4.2 concatField "shape" domain

/-- `VegaRenderer._process_multi_source_plot` from `vega.py`: resolve the
variation (computing the domain eagerly) and fill the multi-source
anchors; returns the varied keys. -/
def process_multi_source_plot (split opts : List String) (st : RState)
    (props : Properties) (ydefs : List YDef) :
    Except RenderError (RState × List String) :=
  let vd := collect_variations ydefs
  match vd.2 with
  | Except.error e => Except.error e
  | Except.ok domain =>
    match fill_optional_multi_source_anchors split opts st props vd.1 domain with
    | Except.error e => Except.error e
    | Except.ok p => Except.ok (p.2, vd.1)

/-- `VegaRenderer._process_optional_anchors` from `vega.py`: collect the
optional anchors declared by the template (returning `None` when there are
none), fill color and zoom-and-pan, then branch on single- vs multi-source. -/
def process_optional_anchors (st : RState) (split : List String)
    (props : Properties) :
    Except RenderError (RState × Option (List String)) :=
  let opts := optionalAnchorNames.filter
    (fun a => hasAnchorJ (anchorOf a) st.content)
  if opts.isEmpty then Except.ok (st, none)
  else
    match fill_color split opts st props with
    | Except.error e => Except.error e
    | Except.ok p1 =>
      let p2 := fill_zoom_and_pan split p1.1 p1.2
      let ydefs := props.anchors_y_definitions
      if ydefs.length ≤ 1 then
        Except.ok (process_single_source_plot split p2.1 p2.2 props, some [])
      else
        match process_multi_source_plot split p2.1 p2.2 props ydefs with
        | Except.error e => Except.error e
        | Except.ok (st2, vk) => Except.ok (st2, some vk)

/-! ## The main fill pass (`get_filled_template`) -/

/-- The fixed required-anchor order of `get_filled_template`. -/
def namesOrder : List String := ["title", "x", "y", "x_label", "y_label", "data"]

/-- The `properties.setdefault` calls of `get_filled_template`: default the
title to the empty string and `x_label`/`y_label` to the `x`/`y` property. -/
def effectiveProps (props : Properties) : Properties :=
  { props with
    title := some (props.title.getD "")
    x_label := props.x_label <|> props.x
    y_label := props.y_label <|> props.y }

/-- The datapoint list as a JSON value. -/
def datapointsJson (dps : List Datapoint) : Json :=
  Json.arr (dps.map Json.obj)

/-- `properties.get(name)` for the required-anchor loop; the `data` value is
always present there (`setdefault("data", self.datapoints)` aliases the,
possibly later updated, datapoint list). -/
def propValue (props : Properties) (dataJ : Json) : String → Option Json
  | "title" => props.title.map Json.str
  | "x" => props.x.map Json.str
  | "y" => props.y.map Json.str
  | "x_label" => props.x_label.map Json.str
  | "y_label" => props.y_label.map Json.str
  | "data" => some dataJ
  | _ => none

/-- The required-anchor loop of `get_filled_template`: skip absent values,
defer split anchors, fail with `BadTemplate` when the `data` anchor is to be
filled but the template does not declare it, and escape `x`/`y` field
names. -/
def run_names (pv : String → Option Json) (split : List String) :
    List String → RState → Except RenderError RState
  | [], st => Except.ok st
  | name :: rest, st =>
    match pv name with
    | none => run_names pv split rest st
    | some v =>
      if split.contains name then run_names pv split rest (st.addSplit name v)
      else if name = "data" then
        if hasAnchorJ (anchorOf "data") st.content then
          run_names pv split rest (st.fill "data" v)
        else Except.error RenderError.badTemplate
      else
        let v2 :=
          if name = "x" || name = "y" then
            match v with
            | Json.str s => Json.str (escape_special_characters s)
            | w => w
          else v
        run_names pv split rest (st.fill name v2)

/-- `VegaRenderer.get_filled_template` from `vega.py`: reset, short-circuit
on empty datapoints, strict validation, optional anchors, datapoint update,
then the required-anchor loop; returns the filled content (the `as_string`
JSON dump is not modelled). -/
def get_filled_template (t : Template) (dps : List Datapoint)
    (props : Properties) (split : List String) (strict : Bool) :
    Except RenderError Json :=
  let t2 := t.reset
  if dps.isEmpty then Except.ok (Json.obj [])
  else
    match (if strict then strict_check dps props else Except.ok ()) with
    | Except.error e => Except.error e
    | Except.ok _ =>
      match process_optional_anchors ⟨t2.content, []⟩ split props with
      | Except.error e => Except.error e
      | Except.ok (st1, vk) =>
        match update_datapoints vk dps with
        | Except.error e => Except.error e
        | Except.ok dps2 =>
          let eff := effectiveProps props
          let dataJ :=
            match props.data with
            | some j => j
            | none => datapointsJson dps2
          match run_names (propValue eff dataJ) split namesOrder st1 with
          | Except.error e => Except.error e
          | Except.ok st2 => Except.ok st2.content

/-! ## The built-in template catalog (`vega_templates.py`)

The `DEFAULT_CONTENT` documents of the template classes, transcribed from
`vega_templates.py`; anchor tokens are produced with `anchorOf` exactly as
the source calls `Template.anchor(...)`. -/

/-- The anchor token for `name`, as a JSON string leaf. -/
def aStr (name : String) : Json := Json.str (anchorOf name)

/-- `BarHorizontalSortedTemplate.DEFAULT_CONTENT`. -/
def bar_horizontal_sorted_content : Json := Json.obj
  [("$schema", Json.str "https://vega.github.io/schema/vega-lite/v5.json"),
   ("data", Json.obj [("values", aStr "data")]),
   ("title", aStr "title"),
   ("width", Json.num 300),
   ("height", Json.num 300),
   ("mark", Json.obj [("type", Json.str "bar")]),
   ("encoding", Json.obj
     [("x", Json.obj
       [("field", aStr "x"), ("type", Json.str "quantitative"),
        ("title", aStr "x_label"),
        ("scale", Json.obj [("zero", Json.bool false)])]),
      ("y", Json.obj
       [("field", aStr "y"), ("type", Json.str "nominal"),
        ("title", aStr "y_label"), ("sort", Json.str "-x")]),
      ("yOffset", Json.obj [("field", Json.str "rev")]),
      ("color", Json.obj [("field", Json.str "rev"),
                          ("type", Json.str "nominal")])])]

/-- `BarHorizontalTemplate.DEFAULT_CONTENT`. -/
def bar_horizontal_content : Json := Json.obj
  [("$schema", Json.str "https://vega.github.io/schema/vega-lite/v5.json"),
   ("data", Json.obj [("values", aStr "data")]),
   ("title", aStr "title"),
   ("width", Json.num 300),
   ("height", Json.num 300),
   ("mark", Json.obj [("type", Json.str "bar")]),
   ("encoding", Json.obj
     [("x", Json.obj
       [("field", aStr "x"), ("type", Json.str "quantitative"),
        ("title", aStr "x_label"),
        ("scale", Json.obj [("zero", Json.bool false)])]),
      ("y", Json.obj
       [("field", aStr "y"), ("type", Json.str "nominal"),
        ("title", aStr "y_label")]),
      ("yOffset", Json.obj [("field", Json.str "rev")]),
      ("color", Json.obj [("field", Json.str "rev"),
                          ("type", Json.str "nominal")])])]

/-- The shared hover-selection block of the confusion templates. -/
def confusionSelection : Json := Json.obj
  [("label", Json.obj
    [("type", Json.str "single"), ("on", Json.str "mouseover"),
     ("encodings", Json.arr [Json.str "x", Json.str "y"]),
     ("empty", Json.str "none"), ("clear", Json.str "mouseout")])]

/-- The shared tooltip/opacity layer of the confusion templates. -/
def confusionTooltipLayer : Json := Json.obj
  [("selection", confusionSelection),
   ("mark", Json.str "rect"),
   ("encoding", Json.obj
     [("tooltip", Json.arr
       [Json.obj [("field", aStr "x"), ("type", Json.str "nominal")],
        Json.obj [("field", aStr "y"), ("type", Json.str "nominal")]]),
      ("opacity", Json.obj
       [("condition", Json.obj [("selection", Json.str "label"),
                                ("value", Json.num 1)]),
        ("value", Json.num 0)])])]

/-- The shared highlight layer of the confusion templates. -/
def confusionHighlightLayer : Json := Json.obj
  [("transform", Json.arr
     [Json.obj [("filter", Json.obj [("selection", Json.str "label")])]]),
   ("layer", Json.arr
     [Json.obj [("mark", Json.obj [("type", Json.str "rect"),
                                   ("color", Json.str "lightpink")])]])]

/-- The shared x/y encoding of the confusion templates. -/
def confusionEncoding : Json := Json.obj
  [("x", Json.obj
    [("field", aStr "x"), ("type", Json.str "nominal"),
     ("sort", Json.str "ascending"), ("title", aStr "x_label")]),
   ("y", Json.obj
    [("field", aStr "y"), ("type", Json.str "nominal"),
     ("sort", Json.str "ascending"), ("title", aStr "y_label")])]

/-- `ConfusionTemplate.DEFAULT_CONTENT`. -/
def confusion_content : Json := Json.obj
  [("$schema", Json.str "https://vega.github.io/schema/vega-lite/v5.json"),
   ("data", Json.obj [("values", aStr "data")]),
   ("title", aStr "title"),
   ("facet", Json.obj [("field", Json.str "rev"),
                       ("type", Json.str "nominal")]),
   ("spec", Json.obj
     [("transform", Json.arr
       [Json.obj
         [("aggregate", Json.arr
           [Json.obj [("op", Json.str "count"),
                      ("as", Json.str "xy_count")]]),
          ("groupby", Json.arr [aStr "y", aStr "x"])],
        Json.obj
         [("impute", Json.str "xy_count"),
          ("groupby", Json.arr [Json.str "rev", aStr "y"]),
          ("key", aStr "x"), ("value", Json.num 0)],
        Json.obj
         [("impute", Json.str "xy_count"),
          ("groupby", Json.arr [Json.str "rev", aStr "x"]),
          ("key", aStr "y"), ("value", Json.num 0)],
        Json.obj
         [("joinaggregate", Json.arr
           [Json.obj [("op", Json.str "max"),
                      ("field", Json.str "xy_count"),
                      ("as", Json.str "max_count")]]),
          ("groupby", Json.arr [])],
        Json.obj
         [("calculate", Json.str "datum.xy_count / datum.max_count"),
          ("as", Json.str "percent_of_max")]]),
      ("encoding", confusionEncoding),
      ("layer", Json.arr
       [Json.obj
         [("mark", Json.str "rect"),
          ("width", Json.num 300), ("height", Json.num 300),
          ("encoding", Json.obj
            [("color", Json.obj
              [("field", Json.str "xy_count"),
               ("type", Json.str "quantitative"),
               ("title", Json.str ""),
               ("scale", Json.obj [("domainMin", Json.num 0),
                                   ("nice", Json.bool true)])])])],
        confusionTooltipLayer,
        confusionHighlightLayer,
        Json.obj
         [("mark", Json.str "text"),
          ("encoding", Json.obj
            [("text", Json.obj [("field", Json.str "xy_count"),
                                ("type", Json.str "quantitative")]),
             ("color", Json.obj
              [("condition", Json.obj
                [("test", Json.str "datum.percent_of_max > 0.5"),
                 ("value", Json.str "white")]),
               ("value", Json.str "black")])])]])])]

/-- `NormalizedConfusionTemplate.DEFAULT_CONTENT`. -/
def confusion_normalized_content : Json := Json.obj
  [("$schema", Json.str "https://vega.github.io/schema/vega-lite/v5.json"),
   ("data", Json.obj [("values", aStr "data")]),
   ("title", aStr "title"),
   ("facet", Json.obj [("field", Json.str "rev"),
                       ("type", Json.str "nominal")]),
   ("spec", Json.obj
     [("transform", Json.arr
       [Json.obj
         [("aggregate", Json.arr
           [Json.obj [("op", Json.str "count"),
                      ("as", Json.str "xy_count")]]),
          ("groupby", Json.arr [aStr "y", aStr "x"])],
        Json.obj
         [("impute", Json.str "xy_count"),
          ("groupby", Json.arr [Json.str "rev", aStr "y"]),
          ("key", aStr "x"), ("value", Json.num 0)],
        Json.obj
         [("impute", Json.str "xy_count"),
          ("groupby", Json.arr [Json.str "rev", aStr "x"]),
          ("key", aStr "y"), ("value", Json.num 0)],
        Json.obj
         [("joinaggregate", Json.arr
           [Json.obj [("op", Json.str "sum"),
                      ("field", Json.str "xy_count"),
                      ("as", Json.str "sum_y")]]),
          ("groupby", Json.arr [aStr "y"])],
        Json.obj
         [("calculate", Json.str "datum.xy_count / datum.sum_y"),
          ("as", Json.str "percent_of_y")]]),
      ("encoding", confusionEncoding),
      ("layer", Json.arr
       [Json.obj
         [("mark", Json.str "rect"),
          ("width", Json.num 300), ("height", Json.num 300),
          ("encoding", Json.obj
            [("color", Json.obj
              [("field", Json.str "percent_of_y"),
               ("type", Json.str "quantitative"),
               ("title", Json.str ""),
               ("scale", Json.obj
                 [("domain", Json.arr [Json.num 0, Json.num 1])])])])],
        confusionTooltipLayer,
        confusionHighlightLayer,
        Json.obj
         [("mark", Json.str "text"),
          ("encoding", Json.obj
            [("text", Json.obj [("field", Json.str "percent_of_y"),
                                ("type", Json.str "quantitative"),
                                ("format", Json.str ".2f")]),
             ("color", Json.obj
              [("condition", Json.obj
                [("test", Json.str "datum.percent_of_y > 0.5"),
                 ("value", Json.str "white")]),
               ("value", Json.str "black")])])]])])]

/-- The hover-label text sub-layer shared by scatter and smooth. -/
def hoverTextLayer : Json := Json.obj
  [("encoding", Json.obj
    [("text", Json.obj [("type", Json.str "quantitative"),
                        ("field", aStr "y")]),
     ("x", Json.obj [("field", aStr "x"),
                     ("type", Json.str "quantitative")]),
     ("y", Json.obj [("field", aStr "y"),
                     ("type", Json.str "quantitative")])]),
   ("layer", Json.arr
    [Json.obj
      [("mark", Json.obj
        [("type", Json.str "text"), ("align", Json.str "left"),
         ("dx", Json.num 5), ("dy", Json.num (-5))]),
       ("encoding", Json.obj
        [("color", Json.obj [("type", Json.str "nominal"),
                             ("field", Json.str "rev")])])]])]

/-- The hover point-selection sub-layer shared by scatter and smooth. -/
def hoverPointLayer : Json := Json.obj
  [("selection", Json.obj
    [("label", Json.obj
      [("type", Json.str "single"), ("nearest", Json.bool true),
       ("on", Json.str "mouseover"),
       ("encodings", Json.arr [Json.str "x"]),
       ("empty", Json.str "none"), ("clear", Json.str "mouseout")])]),
   ("mark", Json.str "point"),
   ("encoding", Json.obj
    [("opacity", Json.obj
      [("condition", Json.obj [("selection", Json.str "label"),
                               ("value", Json.num 1)]),
       ("value", Json.num 0)])])]

/-- The main x/y/color encoding shared by scatter and smooth. -/
def xyRevEncoding : Json := Json.obj
  [("x", Json.obj
    [("field", aStr "x"), ("type", Json.str "quantitative"),
     ("title", aStr "x_label")]),
   ("y", Json.obj
    [("field", aStr "y"), ("type", Json.str "quantitative"),
     ("title", aStr "y_label"),
     ("scale", Json.obj [("zero", Json.bool false)])]),
   ("color", Json.obj [("field", Json.str "rev"),
                       ("type", Json.str "nominal")])]

/-- `ScatterTemplate.DEFAULT_CONTENT`. -/
def scatter_content : Json := Json.obj
  [("$schema", Json.str "https://vega.github.io/schema/vega-lite/v5.json"),
   ("data", Json.obj [("values", aStr "data")]),
   ("title", aStr "title"),
   ("width", Json.num 300),
   ("height", Json.num 300),
   ("layer", Json.arr
    [Json.obj
      [("encoding", xyRevEncoding),
       ("layer", Json.arr
        [Json.obj [("mark", Json.str "point")], hoverPointLayer])],
     Json.obj
      [("transform", Json.arr
        [Json.obj [("filter", Json.obj [("selection", Json.str "label")])]]),
       ("layer", Json.arr [hoverTextLayer])]])]

/-- `SmoothLinearTemplate.DEFAULT_CONTENT`. -/
def smooth_content : Json := Json.obj
  [("$schema", Json.str "https://vega.github.io/schema/vega-lite/v5.json"),
   ("data", Json.obj [("values", aStr "data")]),
   ("title", aStr "title"),
   ("width", Json.num 300),
   ("height", Json.num 300),
   ("params", Json.arr
    [Json.obj
      [("name", Json.str "smooth"), ("value", Json.num 0.2),
       ("bind", Json.obj
        [("input", Json.str "range"), ("min", Json.num 0.001),
         ("max", Json.num 1), ("step", Json.num 0.01)])]]),
   ("transform", Json.arr
    [Json.obj
      [("loess", aStr "y"), ("on", aStr "x"),
       ("groupby", Json.arr [Json.str "rev"]),
       ("bandwidth", Json.obj [("signal", Json.str "smooth")])]]),
   ("layer", Json.arr
    [Json.obj
      [("encoding", xyRevEncoding),
       ("layer", Json.arr
        [Json.obj [("mark", Json.str "line"), ("point", Json.bool true)],
         hoverPointLayer])],
     Json.obj
      [("transform", Json.arr
        [Json.obj [("filter", Json.obj [("selection", Json.str "label")])]]),
       ("layer", Json.arr
        [Json.obj
          [("mark", Json.obj [("type", Json.str "rule"),
                              ("color", Json.str "gray")]),
           ("encoding", Json.obj
            [("x", Json.obj [("field", aStr "x"),
                             ("type", Json.str "quantitative")])])],
         hoverTextLayer])]])]

/-- `LinearTemplate.DEFAULT_CONTENT` (also used by `SimpleLinearTemplate`). -/
def linear_content : Json := Json.obj
  [("$schema", Json.str "https://vega.github.io/schema/vega-lite/v5.json"),
   ("data", Json.obj [("values", aStr "data")]),
   ("title", aStr "title"),
   ("width", Json.num 300),
   ("height", Json.num 300),
   ("mark", Json.obj
    [("type", Json.str "line"), ("point", Json.bool true),
     ("tooltip", Json.obj [("content", Json.str "data")])]),
   ("encoding", Json.obj
    [("x", Json.obj
      [("field", aStr "x"), ("type", Json.str "quantitative"),
       ("title", aStr "x_label")]),
     ("y", Json.obj
      [("field", aStr "y"), ("type", Json.str "quantitative"),
       ("title", aStr "y_label"),
       ("scale", Json.obj [("zero", Json.bool false)])]),
     ("color", Json.obj [("field", Json.str "rev"),
                         ("type", Json.str "nominal")])])]

/-- The `TEMPLATES` registry from `vega_templates.py`, as
`(DEFAULT_NAME, DEFAULT_CONTENT)` pairs in source order. -/
def TEMPLATES : List (String × Json) :=
  [("simple", linear_content),
   ("linear", linear_content),
   ("confusion", confusion_content),
   ("confusion_normalized", confusion_normalized_content),
   ("scatter", scatter_content),
   ("smooth", smooth_content),
   ("bar_horizontal_sorted", bar_horizontal_sorted_content),
   ("bar_horizontal", bar_horizontal_content)]

/-! ## Template resolution (`get_template` / `_find_template`) -/

/-- The filesystem abstraction: a (virtual) mapping from paths to the parsed
JSON content of existing template files. -/
abbrev TemplateFs := String → Option Json

/-- `_find_template` from `vega_templates.py`: try `template_dir/name`, then
that path `with_suffix(".json")`, then the literal path (`resolve()` is
modelled as the identity); the `if template_dir:` guard is Python
truthiness, so an empty directory string is skipped. -/
def find_template (fs : TemplateFs) (templateName : String)
    (templateDir : Option String) : Option String :=
  let fallback := if (fs templateName).isSome then some templateName else none
  match templateDir with
  | some d =>
    if d = "" then fallback
    else
      let p := d ++ "/" ++ templateName
      if (fs p).isSome then some p
      else if (fs (withSuffixJson p)).isSome then some (withSuffixJson p)
      else fallback
  | none => fallback

/-- The `template` argument of `get_template`: an instance, a string, or
`None`. -/
inductive TemplateArg where
  | inst (t : Template)
  | name (s : String)
  | noneArg
  deriving Inhabited

/-- `get_template` from `vega_templates.py`: pass an instance through,
treat `None` as the string "linear", search the filesystem via
`find_template` (loading and constructing a `Template` from the file), then
match the built-in registry by exact `DEFAULT_NAME`, else fail with
`TemplateNotFound`. -/
def get_template (arg : TemplateArg) (templateDir : Option String)
    (fs : TemplateFs) : Except RenderError Template :=
  match arg with
  | TemplateArg.inst t => Except.ok t
  | _ =>
    let tname := match arg with | TemplateArg.name s => s | _ => "linear"
    match find_template fs tname templateDir with
    | some p =>
      match fs p with
      | some content => Template.create (some content) (Json.obj []) tname
      | none => Except.error (RenderError.templateNotFound tname)
    | none =>
      match TEMPLATES.find? (fun b => b.1 = tname) with
      | some b => Except.ok ⟨b.2, b.2, b.1⟩
      | none => Except.error (RenderError.templateNotFound tname)

/-! ## Dumping templates (`dump_templates`) -/

/-- Quote a string as a JSON string literal (escaping backslash and quote;
the built-in documents contain neither). -/
def quoteStr (s : String) : String :=
  "\"" ++ strReplace (strReplace s "\\" "\\\\") "\"" "\\\"" ++ "\""

mutual
/-- Deterministic serialization of a JSON document, modelling `json.dumps`
up to whitespace/number formatting (what matters below is only that it is a
fixed function of the document). -/
def jsonDump : Json → String
  | Json.null => "null"
  | Json.bool b => if b then "true" else "false"
  | Json.num q =>
    if q.den = 1 then toString q.num
    else toString q.num ++ "/" ++ toString q.den
  | Json.str s => quoteStr s
  | Json.arr xs => "[" ++ jsonDumpL xs ++ "]"
  | Json.obj kvs => "\x7b" ++ jsonDumpO kvs ++ "\x7d"

/-- Serialize a sequence body. -/
def jsonDumpL : List Json → String
  | [] => ""
  | [x] => jsonDump x
  | x :: y :: xs => jsonDump x ++ "," ++ jsonDumpL (y :: xs)

/-- Serialize a map body. -/
def jsonDumpO : List (String × Json) → String
  | [] => ""
  | [kv] => quoteStr kv.1 ++ ": " ++ jsonDump kv.2
  | kv :: kv2 :: kvs => quoteStr kv.1 ++ ": " ++ jsonDump kv.2 ++ "," ++ jsonDumpO (kv2 :: kvs)
end

/-- The serialized content a built-in template instance carries
(`json.dumps(DEFAULT_CONTENT, ...) + "\n"` in `Template.__init__`). -/
def templateContentStr (c : Json) : String :=
  jsonDump c ++ "\n"

/-- `output / template.filename` (the template's name `with_suffix(".json")`). -/
def templatePath (output name : String) : String :=
  output ++ "/" ++ withSuffixJson name

/-- The write-or-compare loop of `dump_templates`: an existing target file
with different content stops the dump with `TemplateContentMismatch` (never
overwriting it); an identical one is skipped; a missing one is written. -/
def dump_loop (output : String) (store : String → Option String) :
    List (String × Json) → (String → Option String) × Option RenderError
  | [] => (store, none)
  | (n, c) :: rest =>
    let p := templatePath output n
    match store p with
    | some existing =>
      if existing = templateContentStr c then dump_loop output store rest
      else (store, some (RenderError.contentMismatch n p))
    | none =>
      dump_loop output
        (fun q => if q = p then some (templateContentStr c) else store q) rest

/-- The `targets` filter of `dump_templates` (Python truthiness: an empty
target list selects every template). -/
def selectedTemplates (targets : Option (List String)) : List (String × Json) :=
  match targets with
  | some ts => if ts.isEmpty then TEMPLATES else TEMPLATES.filter (fun b => ts.contains b.1)
  | none => TEMPLATES

/-- `dump_templates` from `vega_templates.py`, over a file store mapping
paths to contents; returns the resulting store and the error, if any. -/
def dump_templates (store : String → Option String) (output : String)
    (targets : Option (List String)) :
    (String → Option String) × Option RenderError :=
  dump_loop output store (selectedTemplates targets)

/-! ## Supporting lemmas -/

theorem contains_iff_mem [DecidableEq α] (l : List α) (a : α) :
    l.contains a = true ↔ a ∈ l := by
  induction l with
  | nil => simp
  | cons b bs ih => simp [List.contains, List.elem_cons, ih]

theorem dedupSeen_of_subset [DecidableEq α] (l seen : List α)
    (h : ∀ x ∈ l, x ∈ seen) : dedupSeen seen l = [] := by
  induction l with
  | nil => rfl
  | cons a as ih =>
    have ha : seen.contains a = true := (contains_iff_mem seen a).mpr (h a (by simp))
    simp only [dedupSeen, ha, if_pos]
    exact ih (fun x hx => h x (by simp [hx]))

theorem dedup_const [DecidableEq α] (l : List α) (a : α)
    (hne : l ≠ []) (h : ∀ x ∈ l, x = a) : dedup l = [a] := by
  match l with
  | [] => exact absurd rfl hne
  | x :: xs =>
    have hx : x = a := h x (by simp)
    subst hx
    have hx2 : ∀ y ∈ xs, y ∈ [x] := by
      intro y hy
      simp [h y (by simp [hy])]
    simp [dedup, dedupSeen, dedupSeen_of_subset xs [x] hx2]

/-! ## Claim C1 -/

/-- The two-series input on which C1's stated tie-break is refuted: both
dimensions take two distinct values, equal to the series count. -/
def c1Defs : List YDef :=
  [{ filename := some "a", field := some "x" },
   { filename := some "b", field := some "y" }]

/-- C1 counterexample: with two series definitions whose source and field
dimensions each take two distinct values (both counts equal to the series
count), the resolver returns BOTH dimensions as `varied_keys`, not the
claimed sole preferred entry `source` (nor `field`). -/
theorem C1_counterexample :
    (collect_variations c1Defs).1 = ["filename", "field"] ∧
    (collect_variations c1Defs).1 ≠ ["filename"] ∧
    (collect_variations c1Defs).1 ≠ ["field"] := by
  refine ⟨by decide, by decide, by decide⟩

/-- C1 (amended): whenever both the source (filename) and the field
dimension take more than one distinct value, `varied_keys` contains BOTH
dimensions, in the fixed order `[filename, field]` — there is no preference
for a dimension whose distinct-value count equals the series count and no
tie-break; the domain is then the sorted distinct `filename::field`
composites.  When exactly one dimension is multi-valued it is the sole
entry and the domain is the sorted distinct values of that dimension. -/
theorem C1_amended :
    (∀ defs : List YDef, (filenameValues defs).length ≠ 1 →
      (fieldValues defs).length ≠ 1 →
      (collect_variations defs).1 = ["filename", "field"] ∧
      (collect_variations defs).2 = Except.ok (sortStrings (concatValues defs)))
    ∧ (∀ defs : List YDef, (filenameValues defs).length ≠ 1 →
      (fieldValues defs).length = 1 →
      (collect_variations defs).1 = ["filename"] ∧
      ((filenameValues defs).all Option.isSome = true →
        (collect_variations defs).2 =
          Except.ok (sortStrings ((filenameValues defs).filterMap id))))
    ∧ (∀ defs : List YDef, (filenameValues defs).length = 1 →
      (fieldValues defs).length ≠ 1 →
      (collect_variations defs).1 = ["field"] ∧
      ((fieldValues defs).all Option.isSome = true →
        (collect_variations defs).2 =
          Except.ok (sortStrings ((fieldValues defs).filterMap id)))) := by
  refine ⟨?_, ?_, ?_⟩
  · intro defs hfn hfd
    constructor
    · simp [collect_variations, hfn, hfd]
    · simp [collect_variations, get_domain, hfn, hfd]
  · intro defs hfn hfd
    constructor
    · simp [collect_variations, hfn, hfd]
    · intro hall
      simp [collect_variations, get_domain, hfn, hfd, hall]
  · intro defs hfn hfd
    constructor
    · simp [collect_variations, hfn, hfd]
    · intro hall
      simp [collect_variations, get_domain, hfn, hfd, hall]

/-- C1 amended, witnessed at concrete inputs: both-multi-valued, only the
filename multi-valued, and only the field multi-valued. -/
theorem C1_amended_witness :
    ((collect_variations c1Defs).1 = ["filename", "field"] ∧
      (collect_variations c1Defs).2 = Except.ok (sortStrings (concatValues c1Defs)))
    ∧ ((collect_variations
        [{ filename := some "test", field := some "acc" },
         { filename := some "train", field := some "acc" }]).1 = ["filename"])
    ∧ ((collect_variations
        [{ filename := some "test", field := some "acc" },
         { filename := some "test", field := some "acc_norm" }]).1 = ["field"]) :=
  ⟨C1_amended.1 c1Defs (by decide) (by decide),
   (C1_amended.2.1
     [{ filename := some "test", field := some "acc" },
      { filename := some "train", field := some "acc" }]
     (by decide) (by decide)).1,
   (C1_amended.2.2
     [{ filename := some "test", field := some "acc" },
      { filename := some "test", field := some "acc_norm" }]
     (by decide) (by decide)).1⟩

/-! ## Claim C2 -/

/-- C2: `get_filled_template` on an empty datapoint sequence short-circuits
to an empty document, for every template, properties mapping, split list
and strict flag — no validation is performed and no error is raised. -/
theorem C2_empty_input (t : Template) (props : Properties)
    (split : List String) (strict : Bool) :
    get_filled_template t [] props split strict = Except.ok (Json.obj []) := rfl

/-! ## Claim C3 -/

/-- C3: `reset` restores the working content to the immutable original and
`fill_anchor` never mutates the stored original, so reset-fill performed
twice on one template instance yields identical content both times. -/
theorem C3_reset_fill_repeatable (t : Template) (a : String) (v : Json) :
    (((t.reset.fill_anchor a v).reset).fill_anchor a v).content
        = (t.reset.fill_anchor a v).content
    ∧ (t.fill_anchor a v).original = t.original
    ∧ t.reset.content = t.original :=
  ⟨rfl, rfl, rfl⟩

/-! ## Claim C6 -/

/-- C6: after a multi-series render, when both dimensions vary every
datapoint gains the composite `filename::field` value (its own filename and
field joined by `::`) and loses both originals; when exactly one dimension
varies only the non-varying key is removed and the varying one is kept; all
other fields are unchanged.  The list-level update maps this over every
datapoint. -/
theorem C6_update_datapoints :
    (∀ (dp : Datapoint) (f g : String),
      getVal dp "filename" = some (Json.str f) →
      getVal dp "field" = some (Json.str g) →
      ∃ dp2, update_datapoint ["filename", "field"] dp = Except.ok dp2 ∧
        getVal dp2 "filename" = none ∧
        getVal dp2 "field" = none ∧
        getVal dp2 "filename::field" = some (Json.str (f ++ "::" ++ g)) ∧
        (∀ k, k ≠ "filename" → k ≠ "field" → k ≠ "filename::field" →
          getVal dp2 k = getVal dp k))
    ∧ (∀ dp : Datapoint,
        update_datapoint ["filename"] dp = Except.ok (eraseKey dp "field") ∧
        getVal (eraseKey dp "field") "field" = none ∧
        getVal (eraseKey dp "field") "filename" = getVal dp "filename" ∧
        (∀ k, k ≠ "field" → getVal (eraseKey dp "field") k = getVal dp k))
    ∧ (∀ dp : Datapoint,
        update_datapoint ["field"] dp = Except.ok (eraseKey dp "filename") ∧
        getVal (eraseKey dp "filename") "filename" = none ∧
        getVal (eraseKey dp "filename") "field" = getVal dp "field" ∧
        (∀ k, k ≠ "filename" → getVal (eraseKey dp "filename") k = getVal dp k))
    ∧ (∀ (vk : List String) (dps : List Datapoint),
        update_datapoints (some vk) dps = mapExcept (update_datapoint vk) dps) := by
  refine ⟨?_, ?_, ?_, ?_⟩
  · intro dp f g hf hg
    refine ⟨eraseKey (eraseKey (setVal dp "filename::field"
        (Json.str (f ++ "::" ++ g))) "filename") "field", ?_, ?_, ?_, ?_, ?_⟩
    · have hj : String.intercalate "::" [f, g] = f ++ "::" ++ g := rfl
      have hk : String.intercalate "::" ["filename", "field"] = "filename::field" := rfl
      simp only [update_datapoint, joinedValue, joinedParts, hf, hg]
      simp [hj, hk, List.foldl]
    · rw [getVal_eraseKey_other _ _ _ (by decide)]
      exact getVal_eraseKey_self _ _
    · exact getVal_eraseKey_self _ _
    · rw [getVal_eraseKey_other _ _ _ (by decide),
        getVal_eraseKey_other _ _ _ (by decide)]
      exact getVal_setVal_self _ _ _
    · intro k hk1 hk2 hk3
      rw [getVal_eraseKey_other _ _ _ hk2, getVal_eraseKey_other _ _ _ hk1,
        getVal_setVal_other _ _ _ _ hk3]
  · intro dp
    refine ⟨rfl, getVal_eraseKey_self _ _, ?_, ?_⟩
    · exact getVal_eraseKey_other _ _ _ (by decide)
    · intro k hk
      exact getVal_eraseKey_other _ _ _ hk
  · intro dp
    refine ⟨rfl, getVal_eraseKey_self _ _, ?_, ?_⟩
    · exact getVal_eraseKey_other _ _ _ (by decide)
    · intro k hk
      exact getVal_eraseKey_other _ _ _ hk
  · intro vk dps
    rfl

/-- C6 witnessed at concrete datapoints for both the two-varied-keys and the
one-varied-key updates. -/
theorem C6_update_datapoints_witness :
    (∃ dp2,
      update_datapoint ["filename", "field"]
        [("rev", Json.str "B"), ("filename", Json.str "test"),
         ("field", Json.str "acc"), ("step", Json.num 1)] = Except.ok dp2 ∧
      getVal dp2 "filename" = none ∧
      getVal dp2 "field" = none ∧
      getVal dp2 "filename::field" = some (Json.str ("test" ++ "::" ++ "acc")) ∧
      (∀ k, k ≠ "filename" → k ≠ "field" → k ≠ "filename::field" →
        getVal dp2 k =
          getVal [("rev", Json.str "B"), ("filename", Json.str "test"),
                  ("field", Json.str "acc"), ("step", Json.num 1)] k))
    ∧ update_datapoint ["filename"]
        [("rev", Json.str "B"), ("filename", Json.str "test"),
         ("field", Json.str "acc")] =
      Except.ok (eraseKey
        [("rev", Json.str "B"), ("filename", Json.str "test"),
         ("field", Json.str "acc")] "field") :=
  ⟨C6_update_datapoints.1 _ "test" "acc" rfl rfl,
   (C6_update_datapoints.2.1 _).1⟩

/-! ## Claim C10 -/

/-- A template declaring the `data` anchor and one optional anchor
(`color`), as needed to reach the multi-source path. -/
def c10Template : Template :=
  { original := Json.obj [("data", aStr "data"), ("color", aStr "color")],
    content := Json.obj [("data", aStr "data"), ("color", aStr "color")],
    name := "c10" }

/-- C10: with two or more series definitions that all share one filename
value and one field value, no dimension is multi-valued, so `varied_keys`
is empty and the domain computation indexes it — the untyped `IndexError`
(modelled by `RenderError.indexError`) — and a render through a template
with at least one optional anchor fails with that untyped error. -/
theorem C10_duplicate_definitions
    (defs : List YDef) (f g : Option String)
    (hlen : 2 ≤ defs.length)
    (hall : ∀ d ∈ defs, d = { filename := f, field := g }) :
    ((collect_variations defs).1 = [] ∧
      (collect_variations defs).2 = Except.error RenderError.indexError)
    ∧ get_filled_template c10Template [[("step", Json.num 1)]]
        { anchors_y_definitions :=
            [{ filename := some "a", field := some "b" },
             { filename := some "a", field := some "b" }] } [] true
      = Except.error RenderError.indexError := by
  have hne : defs ≠ [] := by
    intro h
    rw [h] at hlen
    exact absurd hlen (by decide)
  have hfn : filenameValues defs = [f] := by
    refine dedup_const _ _ ?_ ?_
    · simp [hne]
    · intro x hx
      obtain ⟨d, hd, rfl⟩ := List.mem_map.mp hx
      rw [hall d hd]
  have hfd : fieldValues defs = [g] := by
    refine dedup_const _ _ ?_ ?_
    · simp [hne]
    · intro x hx
      obtain ⟨d, hd, rfl⟩ := List.mem_map.mp hx
      rw [hall d hd]
  refine ⟨⟨?_, ?_⟩, rfl⟩
  · simp [collect_variations, hfn, hfd]
  · simp [collect_variations, get_domain, hfn, hfd]

/-- C10 witnessed at two identical series definitions. -/
theorem C10_duplicate_definitions_witness :
    ((collect_variations
        [{ filename := some "a", field := some "b" },
         { filename := some "a", field := some "b" }]).1 = [] ∧
      (collect_variations
        [{ filename := some "a", field := some "b" },
         { filename := some "a", field := some "b" }]).2 =
        Except.error RenderError.indexError)
    ∧ get_filled_template c10Template [[("step", Json.num 1)]]
        { anchors_y_definitions :=
            [{ filename := some "a", field := some "b" },
             { filename := some "a", field := some "b" }] } [] true
      = Except.error RenderError.indexError :=
  C10_duplicate_definitions
    [{ filename := some "a", field := some "b" },
     { filename := some "a", field := some "b" }]
    (some "a") (some "b") (by decide) (by decide)

/-! ## Claim C5 -/

/-- Look up a key in a JSON map value. -/
def jGet : Json → String → Option Json
  | Json.obj kvs, key => getVal kvs key
  | _, _ => none

theorem length_flatten_replicate {α : Type} (m : Nat) (full : List α) :
    ((List.replicate m full).flatten).length = m * full.length := by
  induction m with
  | zero => simp
  | succ n ih =>
    rw [List.replicate_succ, List.flatten_cons, List.length_append, ih,
      Nat.succ_mul]
    omega

theorem take_flatten_replicate_mono {α : Type} (full : List α) (k m m2 : Nat)
    (hm : m ≤ m2) (hk : k ≤ m * full.length) :
    ((List.replicate m2 full).flatten).take k =
      ((List.replicate m full).flatten).take k := by
  obtain ⟨d, rfl⟩ := Nat.exists_eq_add_of_le hm
  rw [List.replicate_add, List.flatten_append, List.take_append_of_le_length]
  rw [length_flatten_replicate]
  exact hk

theorem take_flatten_replicate_pad {α : Type} (ws full : List α) (n : Nat)
    (hp : 0 < full.length) :
    (ws ++ (List.replicate (n + 1) full).flatten).take n =
      (ws ++ (List.replicate n full).flatten).take n := by
  have h1 : List.replicate (n + 1) full = List.replicate n full ++ [full] := by
    rw [List.replicate_add]
    simp
  rw [h1, List.flatten_append, ← List.append_assoc]
  have hlen : n ≤ (ws ++ (List.replicate n full).flatten).length := by
    rw [List.length_append, length_flatten_replicate]
    have h2 := Nat.le_mul_of_pos_right n hp
    omega
  rw [List.take_append_of_le_length hlen]

theorem anchorRangeLoop_eq {α : Type} (v : α) (rest : List α) :
    ∀ (k : Nat) (rem : List α),
      anchorRangeLoop (v :: rest) k rem =
        some ((rem ++ (List.replicate k (v :: rest)).flatten).take k) := by
  intro k
  induction k with
  | zero => intro rem; simp [anchorRangeLoop]
  | succ n ih =>
    intro rem
    cases rem with
    | nil =>
      simp only [anchorRangeLoop, List.isEmpty_nil, if_true, ih,
        Option.map_some]
      simp [List.replicate_succ]
    | cons w ws =>
      simp only [anchorRangeLoop, ih, List.isEmpty_cons, Bool.false_eq_true,
        if_false, Option.map_some]
      rw [List.cons_append, List.take_succ_cons,
        take_flatten_replicate_pad ws (v :: rest) n (by simp)]
      rfl

theorem ceil_mul_ge (k p : Nat) (hp : 0 < p) : k ≤ ((k + p - 1) / p) * p := by
  have hdm := Nat.div_add_mod (k + p - 1) p
  have hlt : (k + p - 1) % p < p := Nat.mod_lt _ hp
  rw [Nat.mul_comm]
  omega

theorem ceil_le_succ (k p : Nat) (hp : 0 < p) : (k + p - 1) / p ≤ k + 1 := by
  have h2 : k ≤ k * p := Nat.le_mul_of_pos_right k hp
  have h3 : (k + 1) * p = k * p + p := by rw [Nat.succ_mul]
  have h1 : k + p - 1 ≤ (k + 1) * p := by omega
  calc (k + p - 1) / p ≤ ((k + 1) * p) / p := Nat.div_le_div_right h1
    _ = k + 1 := Nat.mul_div_cancel (k + 1) hp

/-- C5: for a non-empty palette of size `p` and a domain of size `k`, the
range-assignment loop never errors and returns exactly the palette repeated
`⌈k/p⌉` times truncated to length `k` (positional assignment with cycling);
consequently `get_optional_anchor_mapping` succeeds for every anchor with a
non-empty palette, its `scale.range` is that cycled list of length `k`, and
the palettes have sizes 7 (color), 7 (stroke_dash) and 4 (shape). -/
theorem C5_palette_cycling :
    (∀ (full : List Json) (k : Nat), full ≠ [] →
      anchorRangeLoop full k full =
        some (((List.replicate ((k + full.length - 1) / full.length)
          full).flatten).take k))
    ∧ (∀ (field name : String) (domain : List String),
        optional_anchor_ranges name ≠ [] →
        ∃ enc,
          get_optional_anchor_mapping field name domain = Except.ok enc ∧
          jGet enc "field" = some (Json.str field) ∧
          ((jGet enc "scale").bind (fun sc => jGet sc "range")) =
            some (Json.arr (((List.replicate
              ((domain.length + (optional_anchor_ranges name).length - 1) /
                (optional_anchor_ranges name).length)
              (optional_anchor_ranges name)).flatten).take domain.length)) ∧
          (((List.replicate
              ((domain.length + (optional_anchor_ranges name).length - 1) /
                (optional_anchor_ranges name).length)
              (optional_anchor_ranges name)).flatten).take domain.length).length
            = domain.length)
    ∧ ((optional_anchor_ranges "color").length = 7 ∧
       (optional_anchor_ranges "stroke_dash").length = 7 ∧
       (optional_anchor_ranges "shape").length = 4) := by
  have main : ∀ (full : List Json) (k : Nat), full ≠ [] →
      anchorRangeLoop full k full =
        some (((List.replicate ((k + full.length - 1) / full.length)
          full).flatten).take k) := by
    intro full k hful
    cases full with
    | nil => exact absurd rfl hful
    | cons v rest =>
      rw [anchorRangeLoop_eq v rest k (v :: rest)]
      congr 1
      have hstep : (v :: rest) ++ (List.replicate k (v :: rest)).flatten
          = (List.replicate (k + 1) (v :: rest)).flatten := by
        rw [List.replicate_succ, List.flatten_cons]
      rw [hstep]
      have hp : 0 < (v :: rest).length := by simp
      exact take_flatten_replicate_mono (v :: rest) k _ _
        (ceil_le_succ k (v :: rest).length hp)
        (ceil_mul_ge k (v :: rest).length hp)
  refine ⟨main, ?_, by decide, by decide, by decide⟩
  intro field name domain hne
  have hp : 0 < (optional_anchor_ranges name).length :=
    List.length_pos.mpr hne
  have hlen :
      (((List.replicate
          ((domain.length + (optional_anchor_ranges name).length - 1) /
            (optional_anchor_ranges name).length)
          (optional_anchor_ranges name)).flatten).take domain.length).length
        = domain.length := by
    rw [List.length_take, length_flatten_replicate]
    exact Nat.min_eq_left (ceil_mul_ge domain.length _ hp)
  have hmap : get_optional_anchor_mapping field name domain =
      Except.ok (Json.obj ([("field", Json.str field),
        ("scale", Json.obj [("domain", Json.arr (domain.map Json.str)),
          ("range", Json.arr (((List.replicate
            ((domain.length + (optional_anchor_ranges name).length - 1) /
              (optional_anchor_ranges name).length)
            (optional_anchor_ranges name)).flatten).take domain.length))])] ++
        (if name ≠ "color" then
          [("legend", Json.obj [("symbolFillColor", Json.str "transparent"),
            ("symbolStrokeColor", Json.str "grey")])]
         else []))) := by
    unfold get_optional_anchor_mapping
    simp only [main (optional_anchor_ranges name) domain.length hne]
  refine ⟨_, hmap, ?_, ?_, hlen⟩
  · simp +decide [jGet, getVal]
  · simp +decide [jGet, getVal]

/-- C5 witnessed on the shape palette (size 4) with a six-element domain:
the assigned range cycles back to the palette start. -/
theorem C5_palette_cycling_witness :
    ∃ enc,
      get_optional_anchor_mapping "filename" "shape"
        ["a", "b", "c", "d", "e", "f"] = Except.ok enc ∧
      ((jGet enc "scale").bind (fun sc => jGet sc "range")) =
        some (Json.arr
          [Json.str "square", Json.str "circle", Json.str "triangle",
           Json.str "diamond", Json.str "square", Json.str "circle"]) := by
  obtain ⟨enc, h1, _, h3, _⟩ := C5_palette_cycling.2.1 "filename" "shape"
    ["a", "b", "c", "d", "e", "f"]
    (List.ne_nil_of_length_pos (by decide))
  refine ⟨enc, h1, ?_⟩
  rw [h3]
  rfl

/-! ## Error classification for the fill pipeline

Each stage of `get_filled_template` can only fail in its own way; these
lemmas drive the strict-validation claim (C4) and the `BadTemplate`
claim (C7). -/

theorem check_field_exists_err {data : List Datapoint} {field : String}
    {e : RenderError}
    (h : Template.check_field_exists data field = Except.error e) :
    e = RenderError.noFieldInData field := by
  by_cases hc : data.any (fun row => hasKey row field) = true
  · simp [Template.check_field_exists, hc] at h
  · simp only [Template.check_field_exists, hc, if_false,
      Bool.false_eq_true] at h
    exact (Except.error.inj h).symm

theorem check_if_truthy_err {dps : List Datapoint} {o : Option String}
    {e : RenderError} (h : check_if_truthy dps o = Except.error e) :
    ∃ f, o = some f ∧ f ≠ "" ∧ e = RenderError.noFieldInData f := by
  cases o with
  | none => simp [check_if_truthy] at h
  | some s =>
    by_cases hs : s = ""
    · simp [check_if_truthy, hs] at h
    · simp only [check_if_truthy, hs, if_false] at h
      exact ⟨s, rfl, hs, check_field_exists_err h⟩

theorem strict_check_err {dps : List Datapoint} {props : Properties}
    {e : RenderError} (h : strict_check dps props = Except.error e) :
    ∃ f, e = RenderError.noFieldInData f := by
  unfold strict_check at h
  cases hx : check_if_truthy dps props.x with
  | error ex =>
    rw [hx] at h
    obtain ⟨f, _, _, hf⟩ := check_if_truthy_err hx
    exact ⟨f, (Except.error.inj h).symm.trans hf⟩
  | ok u =>
    rw [hx] at h
    obtain ⟨f, _, _, hf⟩ := check_if_truthy_err h
    exact ⟨f, hf⟩

theorem get_optional_anchor_mapping_err {field name : String}
    {domain : List String} {e : RenderError}
    (h : get_optional_anchor_mapping field name domain = Except.error e) :
    e = RenderError.indexError := by
  unfold get_optional_anchor_mapping at h
  cases hal : anchorRangeLoop (optional_anchor_ranges name) domain.length
      (optional_anchor_ranges name) with
  | none =>
    simp only [hal] at h
    exact (Except.error.inj h).symm
  | some r =>
    simp only [hal] at h
    exact Except.noConfusion h

theorem fill_optional_anchor_mapping_err {split opts : List String}
    {st : RState} {field name : String} {domain : List String}
    {e : RenderError}
    (h : fill_optional_anchor_mapping split opts st field name domain =
      Except.error e) : e = RenderError.indexError := by
  simp only [fill_optional_anchor_mapping] at h
  split at h
  · exact Except.noConfusion h
  · split at h
    · rename_i e2 heq
      rw [get_optional_anchor_mapping_err heq] at h
      exact (Except.error.inj h).symm
    · split at h
      · exact Except.noConfusion h
      · exact Except.noConfusion h

theorem get_domain_err {variedKeys : List String}
    {fnVals fdVals : List (Option String)} {ccVals : List String}
    {e : RenderError}
    (h : get_domain variedKeys fnVals fdVals ccVals = Except.error e) :
    e = RenderError.indexError ∨ e = RenderError.typeError := by
  simp only [get_domain] at h
  split at h
  · exact Except.noConfusion h
  · split at h
    · exact Or.inl (Except.error.inj h).symm
    · split at h <;> split at h <;>
        first
          | exact Except.noConfusion h
          | exact Or.inr (Except.error.inj h).symm

theorem fill_optional_multi_source_anchors_err {split opts : List String}
    {st : RState} {props : Properties} {variedKeys domain : List String}
    {e : RenderError}
    (h : fill_optional_multi_source_anchors split opts st props variedKeys
      domain = Except.error e) : e = RenderError.indexError := by
  simp only [fill_optional_multi_source_anchors] at h
  split at h
  · exact Except.noConfusion h
  · split at h
    · exact Except.noConfusion h
    · split at h
      · rename_i e2 heq
        rw [fill_optional_anchor_mapping_err heq] at h
        exact (Except.error.inj h).symm
      · exact fill_optional_anchor_mapping_err h

theorem process_multi_source_plot_err {split opts : List String} {st : RState}
    {props : Properties} {ydefs : List YDef} {e : RenderError}
    (h : process_multi_source_plot split opts st props ydefs =
      Except.error e) :
    e = RenderError.indexError ∨ e = RenderError.typeError := by
  simp only [process_multi_source_plot] at h
  split at h
  · rename_i e2 heq
    have hge : get_domain
        ((if (filenameValues ydefs).length = 1 then [] else ["filename"]) ++
          (if (fieldValues ydefs).length = 1 then [] else ["field"]))
        (filenameValues ydefs) (fieldValues ydefs) (concatValues ydefs) =
        Except.error e2 := heq
    have h3 := get_domain_err hge
    rw [Except.error.inj h] at h3
    exact h3
  · split at h
    · rename_i e2 heq
      rw [fill_optional_multi_source_anchors_err heq] at h
      exact Or.inl (Except.error.inj h).symm
    · exact Except.noConfusion h

theorem process_optional_anchors_err {st : RState} {split : List String}
    {props : Properties} {e : RenderError}
    (h : process_optional_anchors st split props = Except.error e) :
    e = RenderError.indexError ∨ e = RenderError.typeError := by
  simp only [process_optional_anchors] at h
  split at h
  · exact Except.noConfusion h
  · split at h
    · rename_i e2 heq
      have he2 : e2 = RenderError.indexError :=
        fill_optional_anchor_mapping_err heq
      rw [he2] at h
      exact Or.inl (Except.error.inj h).symm
    · split at h
      · exact Except.noConfusion h
      · split at h
        · rename_i e2 heq
          have h3 := process_multi_source_plot_err heq
          rw [Except.error.inj h] at h3
          exact h3
        · exact Except.noConfusion h

theorem update_datapoint_err {variedKeys : List String} {dp : Datapoint}
    {e : RenderError}
    (h : update_datapoint variedKeys dp = Except.error e) :
    e = RenderError.typeError := by
  simp only [update_datapoint] at h
  split at h
  · exact (Except.error.inj h).symm
  · exact Except.noConfusion h

theorem mapExcept_err {α β : Type} (P : RenderError → Prop)
    {f : α → Except RenderError β} {l : List α} {e : RenderError}
    (hf : ∀ a e2, f a = Except.error e2 → P e2)
    (h : mapExcept f l = Except.error e) : P e := by
  induction l with
  | nil => simp [mapExcept] at h
  | cons a as ih =>
    unfold mapExcept at h
    cases ha : f a with
    | error e2 =>
      simp only [ha] at h
      rw [Except.error.inj h] at ha
      exact hf a e ha
    | ok b =>
      simp only [ha] at h
      cases hm : mapExcept f as with
      | error e2 =>
        simp only [hm] at h
        rw [Except.error.inj h] at hm
        exact ih hm
      | ok bs =>
        simp only [hm] at h
        exact Except.noConfusion h

theorem update_datapoints_err {vk : Option (List String)}
    {dps : List Datapoint} {e : RenderError}
    (h : update_datapoints vk dps = Except.error e) :
    e = RenderError.typeError := by
  cases vk with
  | none => simp [update_datapoints] at h
  | some keys =>
    exact mapExcept_err (fun e2 => e2 = RenderError.typeError)
      (fun a e2 ha => update_datapoint_err ha) h

theorem run_names_err {pv : String → Option Json} {split : List String}
    {names : List String} {st : RState} {e : RenderError}
    (h : run_names pv split names st = Except.error e) :
    e = RenderError.badTemplate := by
  induction names generalizing st with
  | nil => simp [run_names] at h
  | cons name rest ih =>
    simp only [run_names] at h
    cases hpv : pv name with
    | none =>
      simp only [hpv] at h
      exact ih h
    | some v =>
      simp only [hpv] at h
      split at h
      · exact ih h
      · split at h
        · split at h
          · exact ih h
          · exact (Except.error.inj h).symm
        · exact ih h

theorem run_names_no_data_ok (pv : String → Option Json)
    (split : List String) (names : List String) (h : ¬ "data" ∈ names) :
    ∀ st : RState, ∃ st2, run_names pv split names st = Except.ok st2 := by
  induction names with
  | nil => intro st; exact ⟨st, rfl⟩
  | cons name rest ih =>
    have hname : name ≠ "data" := by
      intro he
      exact h (by simp [he])
    have hrest : ¬ "data" ∈ rest := fun hr => h (by simp [hr])
    intro st
    simp only [run_names]
    cases hpv : pv name with
    | none =>
      simp only [hpv]
      exact ih hrest st
    | some v =>
      simp only [hpv]
      by_cases hs : split.contains name = true
      · rw [if_pos hs]
        exact ih hrest _
      · rw [if_neg hs, if_neg hname]
        exact ih hrest _

theorem run_names_append (pv : String → Option Json) (split : List String)
    (as bs : List String) (st : RState) :
    run_names pv split (as ++ bs) st =
      match run_names pv split as st with
      | Except.error e => Except.error e
      | Except.ok st2 => run_names pv split bs st2 := by
  induction as generalizing st with
  | nil => simp [run_names]
  | cons a as2 ih =>
    simp only [List.cons_append, run_names]
    cases hpv : pv a with
    | none =>
      simp only [hpv]
      exact ih st
    | some v =>
      simp only [hpv]
      by_cases hs : split.contains a = true
      · rw [if_pos hs, if_pos hs]
        exact ih _
      · rw [if_neg hs, if_neg hs]
        by_cases hd : a = "data"
        · rw [if_pos hd, if_pos hd]
          by_cases hha : hasAnchorJ (anchorOf "data") st.content = true
          · rw [if_pos hha, if_pos hha]
            exact ih _
          · rw [if_neg hha, if_neg hha]
        · rw [if_neg hd, if_neg hd]
          exact ih _

/-- The required-anchor names processed before `data`. -/
def namesPre : List String := ["title", "x", "y", "x_label", "y_label"]

/-- The pipeline of `get_filled_template` up to (but excluding) the `data`
step: strict validation, optional anchors, datapoint update, and the five
scalar required anchors; returns the state at the `data` step together with
the `data` value. -/
def pre_data_state (t : Template) (dps : List Datapoint) (props : Properties)
    (split : List String) (strict : Bool) :
    Except RenderError (RState × Json) :=
  match (if strict then strict_check dps props else Except.ok ()) with
  | Except.error e => Except.error e
  | Except.ok _ =>
    match process_optional_anchors ⟨t.reset.content, []⟩ split props with
    | Except.error e => Except.error e
    | Except.ok (st1, vk) =>
      match update_datapoints vk dps with
      | Except.error e => Except.error e
      | Except.ok dps2 =>
        let eff := effectiveProps props
        let dataJ :=
          match props.data with
          | some j => j
          | none => datapointsJson dps2
        match run_names (propValue eff dataJ) split namesPre st1 with
        | Except.error e => Except.error e
        | Except.ok st2 => Except.ok (st2, dataJ)

theorem get_filled_template_decompose (t : Template) (dps : List Datapoint)
    (props : Properties) (split : List String) (strict : Bool)
    (hne : dps.isEmpty = false) :
    get_filled_template t dps props split strict =
      match pre_data_state t dps props split strict with
      | Except.error e => Except.error e
      | Except.ok (st, dataJ) =>
        if "data" ∈ split then Except.ok ((st.addSplit "data" dataJ).content)
        else if hasAnchorJ (anchorOf "data") st.content = true then
          Except.ok ((st.fill "data" dataJ).content)
        else Except.error RenderError.badTemplate := by
  unfold get_filled_template pre_data_state
  simp only [hne, Bool.false_eq_true, if_false]
  cases h1 : (if strict then strict_check dps props else Except.ok ()) with
  | error e => rfl
  | ok u =>
    dsimp only
    cases h2 : process_optional_anchors ⟨t.reset.content, []⟩ split props with
    | error e => rfl
    | ok p =>
      obtain ⟨st1, vk⟩ := p
      dsimp only
      cases h3 : update_datapoints vk dps with
      | error e => rfl
      | ok dps2 =>
        dsimp only
        have hsplitNames : namesOrder = namesPre ++ ["data"] := rfl
        rw [hsplitNames, run_names_append]
        cases h4 : run_names
            (propValue (effectiveProps props)
              (match props.data with
               | some j => j
               | none => datapointsJson dps2)) split namesPre st1 with
        | error e => rfl
        | ok st2 =>
          dsimp only
          simp only [run_names]
          have hpd : propValue (effectiveProps props)
              (match props.data with
               | some j => j
               | none => datapointsJson dps2) "data" =
              some (match props.data with
               | some j => j
               | none => datapointsJson dps2) := rfl
          simp only [hpd]
          by_cases hs : "data" ∈ split
          · rw [if_pos ((contains_iff_mem split "data").mpr hs), if_pos hs]
          · have hs2 : ¬ split.contains "data" = true := by
              intro hc
              exact hs ((contains_iff_mem split "data").mp hc)
            rw [if_neg hs2, if_neg hs, if_pos trivial]
            by_cases hha : hasAnchorJ (anchorOf "data") st2.content = true
            · rw [if_pos hha, if_pos hha]
            · rw [if_neg hha, if_neg hha]

theorem pre_data_state_err {t : Template} {dps : List Datapoint}
    {props : Properties} {split : List String} {strict : Bool}
    {e : RenderError}
    (h : pre_data_state t dps props split strict = Except.error e) :
    (∃ f, e = RenderError.noFieldInData f) ∨ e = RenderError.indexError ∨
      e = RenderError.typeError := by
  simp only [pre_data_state] at h
  split at h
  · rename_i e1 heq
    by_cases hst : strict = true
    · rw [if_pos hst] at heq
      obtain ⟨f, hf⟩ := strict_check_err heq
      exact Or.inl ⟨f, (Except.error.inj h) ▸ hf⟩
    · rw [if_neg hst] at heq
      exact Except.noConfusion heq
  · split at h
    · rename_i e1 heq
      have h2 := process_optional_anchors_err heq
      exact Or.inr ((Except.error.inj h) ▸ h2)
    · split at h
      · rename_i e1 heq
        have h2 := update_datapoints_err heq
        exact Or.inr (Or.inr ((Except.error.inj h) ▸ h2))
      · split at h
        · rename_i e1 heq
          obtain ⟨st2, hok⟩ := run_names_no_data_ok (propValue
              (effectiveProps props)
              (match props.data with
               | some j => j
               | none => datapointsJson _)) split namesPre
            (by decide) _
          rw [hok] at heq
          exact Except.noConfusion heq
        · exact Except.noConfusion h

theorem pre_data_state_not_bad {t : Template} {dps : List Datapoint}
    {props : Properties} {split : List String} {strict : Bool}
    (h : pre_data_state t dps props split strict =
      Except.error RenderError.badTemplate) : False := by
  rcases pre_data_state_err h with ⟨f, hf⟩ | hf | hf <;>
    exact RenderError.noConfusion hf

theorem pre_data_state_false_err {t : Template} {dps : List Datapoint}
    {props : Properties} {split : List String} {e : RenderError}
    (h : pre_data_state t dps props split false = Except.error e) :
    e = RenderError.indexError ∨ e = RenderError.typeError := by
  simp only [pre_data_state] at h
  split at h
  · rename_i e1 heq
    rw [if_neg (by decide)] at heq
    exact Except.noConfusion heq
  · split at h
    · rename_i e1 heq
      have h2 := process_optional_anchors_err heq
      exact (Except.error.inj h) ▸ h2
    · split at h
      · rename_i e1 heq
        have h2 := update_datapoints_err heq
        exact Or.inr ((Except.error.inj h) ▸ h2)
      · split at h
        · rename_i e1 heq
          obtain ⟨st2, hok⟩ := run_names_no_data_ok (propValue
              (effectiveProps props)
              (match props.data with
               | some j => j
               | none => datapointsJson _)) split namesPre
            (by decide) _
          rw [hok] at heq
          exact Except.noConfusion heq
        · exact Except.noConfusion h

/-! ## Claim C4 -/

/-- C4: `check_field_exists` fails with `NoFieldInData` exactly when no row
contains the field (and succeeds exactly when some row does); with
`strict = true` and a configured non-empty `x` absent from every datapoint
`get_filled_template` raises exactly that error (and symmetrically for `y`
once the `x` check passes); with `strict = false` no `NoFieldInData` error
can be produced at all. -/
theorem C4_strict_validation :
    (∀ (data : List Datapoint) (field : String),
      (Template.check_field_exists data field =
          Except.error (RenderError.noFieldInData field) ↔
        ∀ row ∈ data, hasKey row field = false)
      ∧ (Template.check_field_exists data field = Except.ok () ↔
        ∃ row ∈ data, hasKey row field = true))
    ∧ (∀ (t : Template) (dps : List Datapoint) (props : Properties)
        (split : List String) (x : String),
        dps ≠ [] → props.x = some x → x ≠ "" →
        (∀ row ∈ dps, hasKey row x = false) →
        get_filled_template t dps props split true =
          Except.error (RenderError.noFieldInData x))
    ∧ (∀ (t : Template) (dps : List Datapoint) (props : Properties)
        (split : List String) (y : String),
        dps ≠ [] → check_if_truthy dps props.x = Except.ok () →
        props.y = some y → y ≠ "" →
        (∀ row ∈ dps, hasKey row y = false) →
        get_filled_template t dps props split true =
          Except.error (RenderError.noFieldInData y))
    ∧ (∀ (t : Template) (dps : List Datapoint) (props : Properties)
        (split : List String) (f : String),
        get_filled_template t dps props split false ≠
          Except.error (RenderError.noFieldInData f)) := by
  have hiff : ∀ (data : List Datapoint) (field : String),
      (Template.check_field_exists data field =
          Except.error (RenderError.noFieldInData field) ↔
        ∀ row ∈ data, hasKey row field = false)
      ∧ (Template.check_field_exists data field = Except.ok () ↔
        ∃ row ∈ data, hasKey row field = true) := by
    intro data field
    constructor
    · constructor
      · intro h row hrow
        by_cases hc : data.any (fun r => hasKey r field) = true
        · simp [Template.check_field_exists, hc] at h
        · have hc2 : data.any (fun r => hasKey r field) = false := by
            simpa using hc
          rw [List.any_eq_false] at hc2
          simpa using hc2 row hrow
      · intro hall
        have hc : data.any (fun r => hasKey r field) = false := by
          rw [List.any_eq_false]
          intro r hr
          simp [hall r hr]
        simp [Template.check_field_exists, hc]
    · constructor
      · intro h
        by_cases hc : data.any (fun r => hasKey r field) = true
        · simpa using List.any_eq_true.mp hc
        · simp [Template.check_field_exists, hc] at h
      · intro hex
        have hc : data.any (fun r => hasKey r field) = true := by
          rw [List.any_eq_true]
          simpa using hex
        simp [Template.check_field_exists, hc]
  have hcferr : ∀ (dps : List Datapoint) (x : String), x ≠ "" →
      (∀ row ∈ dps, hasKey row x = false) →
      check_if_truthy dps (some x) =
        Except.error (RenderError.noFieldInData x) := by
    intro dps x hxe hmiss
    have hstep : check_if_truthy dps (some x) =
        (if x = "" then Except.ok () else Template.check_field_exists dps x) :=
      rfl
    rw [hstep, if_neg hxe]
    exact ((hiff dps x).1).mpr hmiss
  have hisE : ∀ (dps : List Datapoint), dps ≠ [] → dps.isEmpty = false := by
    intro dps h
    cases dps with
    | nil => exact absurd rfl h
    | cons a as => rfl
  refine ⟨hiff, ?_, ?_, ?_⟩
  · intro t dps props split x hne hx hxe hmiss
    rw [get_filled_template_decompose _ _ _ _ _ (hisE dps hne)]
    have hpre : pre_data_state t dps props split true =
        Except.error (RenderError.noFieldInData x) := by
      simp only [pre_data_state, if_pos]
      have hsc : strict_check dps props =
          Except.error (RenderError.noFieldInData x) := by
        unfold strict_check
        rw [hx, hcferr dps x hxe hmiss]
      rw [hsc]
    rw [hpre]
  · intro t dps props split y hne hxok hy hye hmiss
    rw [get_filled_template_decompose _ _ _ _ _ (hisE dps hne)]
    have hpre : pre_data_state t dps props split true =
        Except.error (RenderError.noFieldInData y) := by
      simp only [pre_data_state, if_pos]
      have hsc : strict_check dps props =
          Except.error (RenderError.noFieldInData y) := by
        unfold strict_check
        rw [hxok, hy, hcferr dps y hye hmiss]
      rw [hsc]
    rw [hpre]
  · intro t dps props split f h
    by_cases hemp : dps.isEmpty = true
    · have hok : get_filled_template t dps props split false =
          Except.ok (Json.obj []) := by
        unfold get_filled_template
        rw [if_pos hemp]
      rw [hok] at h
      exact Except.noConfusion h
    · rw [get_filled_template_decompose _ _ _ _ _
        (by simpa using hemp)] at h
      cases hpre : pre_data_state t dps props split false with
      | error e =>
        rw [hpre] at h
        rcases pre_data_state_false_err hpre with h2 | h2 <;>
          exact RenderError.noConfusion (h2 ▸ (Except.error.inj h))
      | ok p =>
        obtain ⟨st, dataJ⟩ := p
        rw [hpre] at h
        dsimp only at h
        by_cases hs : "data" ∈ split
        · rw [if_pos hs] at h
          exact Except.noConfusion h
        · rw [if_neg hs] at h
          by_cases hha : hasAnchorJ (anchorOf "data") st.content = true
          · rw [if_pos hha] at h
            exact Except.noConfusion h
          · rw [if_neg hha] at h
            exact RenderError.noConfusion (Except.error.inj h)

/-- C4 witnessed: two datapoints without the configured x field raise
`NoFieldInData` under `strict = true`; with `strict = false` the same call
does not produce that error; `check_field_exists` fails on the absent field
and succeeds on a present one. -/
theorem C4_strict_validation_witness :
    get_filled_template
        { original := Json.obj [("data", aStr "data")],
          content := Json.obj [("data", aStr "data")], name := "w" }
        [[("val", Json.num 2)], [("val", Json.num 3)]]
        { x := some "no_val" } [] true =
      Except.error (RenderError.noFieldInData "no_val")
    ∧ (∀ f, get_filled_template
        { original := Json.obj [("data", aStr "data")],
          content := Json.obj [("data", aStr "data")], name := "w" }
        [[("val", Json.num 2)], [("val", Json.num 3)]]
        { x := some "no_val" } [] false ≠
      Except.error (RenderError.noFieldInData f))
    ∧ Template.check_field_exists [[("val", Json.num 2)]] "no_val" =
        Except.error (RenderError.noFieldInData "no_val")
    ∧ Template.check_field_exists [[("val", Json.num 2)]] "val" =
        Except.ok () :=
  ⟨C4_strict_validation.2.1 _ _ _ _ "no_val" (List.cons_ne_nil _ _) rfl
      (by decide) (by decide),
   fun f => C4_strict_validation.2.2.2 _ _ _ _ f,
   ((C4_strict_validation.1 _ "no_val").1).mpr (by decide),
   ((C4_strict_validation.1 _ "val").2).mpr
     ⟨[("val", Json.num 2)], List.mem_singleton.mpr rfl, rfl⟩⟩

/-! ## Claim C7 -/

/-- C7: `BadTemplate` arises in exactly two situations.  Construction:
`Template.create` fails (always with `BadTemplate`) precisely when content
is supplied but is not a map-shaped document.  Rendering:
`get_filled_template` fails with `BadTemplate` precisely when the
datapoints are non-empty, `data` is not deferred, the pipeline reaches the
`data` step, and the working content there does not carry the `data`
anchor — in that case no specification is returned. -/
theorem C7_bad_template :
    (∀ (content : Option Json) (defaultContent : Json) (nm : String),
      ((∃ e, Template.create content defaultContent nm = Except.error e) ↔
        (∃ c, content = some c ∧ Template.isMap c = false))
      ∧ (∀ e, Template.create content defaultContent nm = Except.error e →
          e = RenderError.badTemplate))
    ∧ (∀ (t : Template) (dps : List Datapoint) (props : Properties)
        (split : List String) (strict : Bool),
        get_filled_template t dps props split strict =
            Except.error RenderError.badTemplate ↔
          (dps ≠ [] ∧ ¬ "data" ∈ split ∧
            ∃ st dataJ, pre_data_state t dps props split strict =
                Except.ok (st, dataJ) ∧
              hasAnchorJ (anchorOf "data") st.content = false)) := by
  constructor
  · intro content defaultContent nm
    constructor
    · constructor
      · rintro ⟨e, he⟩
        cases content with
        | none => exact Except.noConfusion he
        | some c =>
          refine ⟨c, rfl, ?_⟩
          by_cases hm : Template.isMap c = true
          · simp [Template.create, hm] at he
          · simpa using hm
      · rintro ⟨c, rfl, hm⟩
        refine ⟨RenderError.badTemplate, ?_⟩
        simp [Template.create, hm]
    · intro e he
      cases content with
      | none => exact Except.noConfusion he
      | some c =>
        by_cases hm : Template.isMap c = true
        · simp [Template.create, hm] at he
        · have hm2 : Template.isMap c = false := by simpa using hm
          simp [Template.create, hm2] at he
          exact he.symm
  · intro t dps props split strict
    constructor
    · intro h
      cases hdps : dps with
      | nil =>
        rw [hdps] at h
        have hok : get_filled_template t [] props split strict =
            Except.ok (Json.obj []) := rfl
        rw [hok] at h
        exact Except.noConfusion h
      | cons d ds =>
        subst hdps
        have hemp : (d :: ds).isEmpty = false := rfl
        rw [get_filled_template_decompose _ _ _ _ _ hemp] at h
        cases hpre : pre_data_state t (d :: ds) props split strict with
        | error e =>
          rw [hpre] at h
          rw [Except.error.inj h] at hpre
          exact absurd (pre_data_state_not_bad hpre) (fun h2 => h2)
        | ok p =>
          obtain ⟨st, dataJ⟩ := p
          rw [hpre] at h
          dsimp only at h
          by_cases hs : "data" ∈ split
          · rw [if_pos hs] at h
            exact Except.noConfusion h
          · rw [if_neg hs] at h
            by_cases hha : hasAnchorJ (anchorOf "data") st.content = true
            · rw [if_pos hha] at h
              exact Except.noConfusion h
            · refine ⟨List.cons_ne_nil _ _, hs, st, dataJ, rfl, ?_⟩
              simpa using hha
    · rintro ⟨hne, hs, st, dataJ, hpre, hha⟩
      have hemp : dps.isEmpty = false := by
        cases dps with
        | nil => exact absurd rfl hne
        | cons d ds => rfl
      rw [get_filled_template_decompose _ _ _ _ _ hemp, hpre]
      dsimp only
      rw [if_neg hs, if_neg (by simp [hha])]

/-- C7 witnessed: constructing a template from non-map content fails with
`BadTemplate`; rendering non-empty datapoints through a template lacking
the `data` anchor fails with `BadTemplate`. -/
theorem C7_bad_template_witness :
    (∃ e, Template.create (some (Json.str "content")) (Json.obj []) "name" =
      Except.error e)
    ∧ get_filled_template
        { original := Json.obj [("mark", Json.str "line")],
          content := Json.obj [("mark", Json.str "line")], name := "w7" }
        [[("val", Json.num 2)]] {} [] true =
      Except.error RenderError.badTemplate :=
  ⟨((C7_bad_template.1 (some (Json.str "content")) (Json.obj []) "name").1).mpr
     ⟨Json.str "content", rfl, rfl⟩,
   (C7_bad_template.2
     { original := Json.obj [("mark", Json.str "line")],
       content := Json.obj [("mark", Json.str "line")], name := "w7" }
     [[("val", Json.num 2)]] {} [] true).mpr
     ⟨List.cons_ne_nil _ _, by simp, ⟨Json.obj [("mark", Json.str "line")],
        []⟩, Json.arr [Json.obj [("val", Json.num 2)]], rfl, rfl⟩⟩

/-! ## Claim C8 -/

theorem find_template_noneDir (fs : TemplateFs) (s : String) :
    find_template fs s none = (if (fs s).isSome then some s else none) := rfl

theorem find_template_dir_hit {fs : TemplateFs} {d s : String} {c : Json}
    (hd : d ≠ "") (hfs : fs (d ++ "/" ++ s) = some c) :
    find_template fs s (some d) = some (d ++ "/" ++ s) := by
  simp only [find_template]
  rw [if_neg hd, hfs]
  rfl

theorem find_template_dir_suffix {fs : TemplateFs} {d s : String} {c : Json}
    (hd : d ≠ "") (h1 : fs (d ++ "/" ++ s) = none)
    (h2 : fs (withSuffixJson (d ++ "/" ++ s)) = some c) :
    find_template fs s (some d) = some (withSuffixJson (d ++ "/" ++ s)) := by
  simp only [find_template]
  rw [if_neg hd, h1, h2]
  rfl

theorem find_template_dir_fallback {fs : TemplateFs} {d s : String}
    (hd : d ≠ "") (h1 : fs (d ++ "/" ++ s) = none)
    (h2 : fs (withSuffixJson (d ++ "/" ++ s)) = none) :
    find_template fs s (some d) =
      (if (fs s).isSome then some s else none) := by
  simp only [find_template]
  rw [if_neg hd, h1, h2]
  rfl

/-- Formalisation of C8's stated resolution algorithm, following the
claim's words exactly: the `.json` extension is APPENDED to
`template_dir/template` (rather than pathlib's suffix replacement), and
`None` resolves directly to the built-in linear template (rather than being
looked up as the string "linear").  Used only to exhibit where the claim
deviates from the code. -/
def get_template_claimC8 (arg : TemplateArg) (templateDir : Option String)
    (fs : TemplateFs) : Except RenderError Template :=
  match arg with
  | TemplateArg.inst t => Except.ok t
  | TemplateArg.noneArg =>
    Except.ok ⟨linear_content, linear_content, "linear"⟩
  | TemplateArg.name s =>
    let found : Option String :=
      match templateDir with
      | some d =>
        if (fs (d ++ "/" ++ s)).isSome then some (d ++ "/" ++ s)
        else if (fs (d ++ "/" ++ s ++ ".json")).isSome then
          some (d ++ "/" ++ s ++ ".json")
        else if (fs s).isSome then some s
        else none
      | none => if (fs s).isSome then some s else none
    match found with
    | some p =>
      match fs p with
      | some content => Template.create (some content) (Json.obj []) s
      | none => Except.error (RenderError.templateNotFound s)
    | none =>
      match TEMPLATES.find? (fun b => b.1 = s) with
      | some b => Except.ok ⟨b.2, b.2, b.1⟩
      | none => Except.error (RenderError.templateNotFound s)

/-- The filesystem of the C8 counterexample: only `d/foo.json` exists. -/
def c8fs : TemplateFs :=
  fun p => if p = "d/foo.json" then some (Json.obj [("a", Json.num 1)])
    else none

/-- C8 counterexample: requesting template "foo.tpl" with directory "d" on
a filesystem holding only `d/foo.json`.  The code applies
`with_suffix(".json")` — REPLACING the `.tpl` extension — finds
`d/foo.json` and loads it, while the claim's algorithm (append `.json`,
i.e. try `d/foo.tpl.json`) finds nothing and would fail with
`TemplateNotFound`; so the claim's stated resolution differs from the
code's. -/
theorem C8_counterexample :
    get_template (TemplateArg.name "foo.tpl") (some "d") c8fs =
      Except.ok ⟨Json.obj [("a", Json.num 1)], Json.obj [("a", Json.num 1)],
        "foo.tpl"⟩
    ∧ get_template_claimC8 (TemplateArg.name "foo.tpl") (some "d") c8fs =
      Except.error (RenderError.templateNotFound "foo.tpl")
    ∧ get_template (TemplateArg.name "foo.tpl") (some "d") c8fs ≠
      get_template_claimC8 (TemplateArg.name "foo.tpl") (some "d") c8fs := by
  refine ⟨rfl, rfl, ?_⟩
  intro h
  have h1 : get_template (TemplateArg.name "foo.tpl") (some "d") c8fs =
      Except.ok ⟨Json.obj [("a", Json.num 1)], Json.obj [("a", Json.num 1)],
        "foo.tpl"⟩ := rfl
  have h2 : get_template_claimC8 (TemplateArg.name "foo.tpl") (some "d")
      c8fs = Except.error (RenderError.templateNotFound "foo.tpl") := rfl
  rw [h1, h2] at h
  exact Except.noConfusion h

/-- C8 (amended): template resolution follows the code's exact order — an
instance passes through; `None` is resolved as the string "linear" (an
on-disk file named `linear` therefore takes precedence over the built-in);
a string is looked up as `template_dir/template`, then as that path with
`with_suffix(".json")` (replacing an existing extension, appending only
when there is none), then as a literal path; a found file is loaded and
constructed; otherwise the string is matched exactly against the built-in
`DEFAULT_NAME`s; if everything fails, `TemplateNotFound` is raised. -/
theorem C8_amended :
    (∀ (t : Template) (dir : Option String) (fs : TemplateFs),
      get_template (TemplateArg.inst t) dir fs = Except.ok t)
    ∧ (∀ (dir : Option String) (fs : TemplateFs),
      get_template TemplateArg.noneArg dir fs =
        get_template (TemplateArg.name "linear") dir fs)
    ∧ (∀ (d s : String) (fs : TemplateFs) (c : Json), d ≠ "" →
      fs (d ++ "/" ++ s) = some c →
      get_template (TemplateArg.name s) (some d) fs =
        Template.create (some c) (Json.obj []) s)
    ∧ (∀ (d s : String) (fs : TemplateFs) (c : Json), d ≠ "" →
      fs (d ++ "/" ++ s) = none →
      fs (withSuffixJson (d ++ "/" ++ s)) = some c →
      get_template (TemplateArg.name s) (some d) fs =
        Template.create (some c) (Json.obj []) s)
    ∧ (∀ (d s : String) (fs : TemplateFs) (c : Json), d ≠ "" →
      fs (d ++ "/" ++ s) = none →
      fs (withSuffixJson (d ++ "/" ++ s)) = none → fs s = some c →
      get_template (TemplateArg.name s) (some d) fs =
        Template.create (some c) (Json.obj []) s)
    ∧ (∀ (s : String) (fs : TemplateFs) (c : Json), fs s = some c →
      get_template (TemplateArg.name s) none fs =
        Template.create (some c) (Json.obj []) s)
    ∧ (∀ (dir : Option String) (s : String) (fs : TemplateFs)
        (nm : String) (c : Json),
      find_template fs s dir = none →
      TEMPLATES.find? (fun b => b.1 = s) = some (nm, c) →
      get_template (TemplateArg.name s) dir fs = Except.ok ⟨c, c, nm⟩)
    ∧ (∀ (dir : Option String) (s : String) (fs : TemplateFs),
      find_template fs s dir = none →
      TEMPLATES.find? (fun b => b.1 = s) = none →
      get_template (TemplateArg.name s) dir fs =
        Except.error (RenderError.templateNotFound s)) := by
  have hname : ∀ (s : String) (dir : Option String) (fs : TemplateFs),
      get_template (TemplateArg.name s) dir fs =
        (match find_template fs s dir with
         | some p =>
           match fs p with
           | some content => Template.create (some content) (Json.obj []) s
           | none => Except.error (RenderError.templateNotFound s)
         | none =>
           match TEMPLATES.find? (fun b => b.1 = s) with
           | some b => Except.ok ⟨b.2, b.2, b.1⟩
           | none => Except.error (RenderError.templateNotFound s)) := by
    intro s dir fs
    rfl
  refine ⟨fun t dir fs => rfl, fun dir fs => rfl, ?_, ?_, ?_, ?_, ?_, ?_⟩
  · intro d s fs c hd hfs
    rw [hname, find_template_dir_hit hd hfs]
    dsimp only
    rw [hfs]
  · intro d s fs c hd h1 h2
    rw [hname, find_template_dir_suffix hd h1 h2]
    dsimp only
    rw [h2]
  · intro d s fs c hd h1 h2 h3
    rw [hname, find_template_dir_fallback hd h1 h2, h3]
    simp only [Option.isSome_some, if_true]
    rw [h3]
  · intro s fs c h3
    rw [hname, find_template_noneDir, h3]
    simp only [Option.isSome_some, if_true]
    rw [h3]
  · intro dir s fs nm c hfind hbuiltin
    rw [hname, hfind, hbuiltin]
  · intro dir s fs hfind hbuiltin
    rw [hname, hfind, hbuiltin]

/-- C8 amended, witnessed: a directory hit on `d/bar`, the suffix-replaced
hit of the counterexample filesystem, built-in resolution of "linear", and
`TemplateNotFound` for an unknown name on an empty filesystem. -/
theorem C8_amended_witness :
    get_template (TemplateArg.name "bar") (some "d")
        (fun p => if p = "d/bar" then some (Json.obj []) else none) =
      Template.create (some (Json.obj [])) (Json.obj []) "bar"
    ∧ get_template (TemplateArg.name "foo.tpl") (some "d") c8fs =
      Template.create (some (Json.obj [("a", Json.num 1)])) (Json.obj [])
        "foo.tpl"
    ∧ get_template (TemplateArg.name "linear") none (fun _ => none) =
      Except.ok ⟨linear_content, linear_content, "linear"⟩
    ∧ get_template (TemplateArg.name "nope") none (fun _ => none) =
      Except.error (RenderError.templateNotFound "nope") :=
  ⟨C8_amended.2.2.1 "d" "bar"
     (fun p => if p = "d/bar" then some (Json.obj []) else none)
     (Json.obj []) (by decide) rfl,
   C8_amended.2.2.2.1 "d" "foo.tpl" c8fs (Json.obj [("a", Json.num 1)])
     (by decide) rfl rfl,
   C8_amended.2.2.2.2.2.2.1 none "linear" (fun _ => none) "linear"
     linear_content rfl rfl,
   C8_amended.2.2.2.2.2.2.2 none "nope" (fun _ => none) rfl rfl⟩

/-! ## Claim C9 -/

theorem dump_loop_preserves (output : String) :
    ∀ (l : List (String × Json)) (store : String → Option String)
      (p c : String), store p = some c →
      ((dump_loop output store l).1) p = some c := by
  intro l
  induction l with
  | nil =>
    intro store p c h
    exact h
  | cons hd rest ih =>
    intro store p c h
    obtain ⟨n, cc⟩ := hd
    simp only [dump_loop]
    cases hs : store (templatePath output n) with
    | some existing =>
      dsimp only
      by_cases he : existing = templateContentStr cc
      · rw [if_pos he]
        exact ih store p c h
      · rw [if_neg he]
        exact h
    | none =>
      dsimp only
      refine ih _ p c ?_
      have hne : p ≠ templatePath output n := by
        intro heq
        rw [heq, hs] at h
        exact Option.noConfusion h
      simp only [hne, if_false, reduceIte]
      exact h

theorem dump_loop_mismatch (output : String) :
    ∀ (l : List (String × Json)) (store : String → Option String)
      (n : String) (c : Json) (s2 : String), (n, c) ∈ l →
      store (templatePath output n) = some s2 →
      s2 ≠ templateContentStr c →
      ∃ n2 p2, (dump_loop output store l).2 =
        some (RenderError.contentMismatch n2 p2) := by
  intro l
  induction l with
  | nil =>
    intro store n c s2 hmem
    exact absurd hmem (List.not_mem_nil _)
  | cons hd rest ih =>
    intro store n c s2 hmem hstore hne
    obtain ⟨hn, hc⟩ := hd
    simp only [dump_loop]
    cases hs : store (templatePath output hn) with
    | some existing =>
      dsimp only
      by_cases he : existing = templateContentStr hc
      · rw [if_pos he]
        rcases List.mem_cons.mp hmem with heq | hmem2
        · obtain ⟨rfl, rfl⟩ := Prod.mk.injEq .. ▸ heq
          rw [hstore] at hs
          rw [(Option.some.inj hs)] at hne
          exact absurd he hne
        · exact ih store n c s2 hmem2 hstore hne
      · rw [if_neg he]
        exact ⟨hn, templatePath output hn, rfl⟩
    | none =>
      dsimp only
      rcases List.mem_cons.mp hmem with heq | hmem2
      · obtain ⟨rfl, rfl⟩ := Prod.mk.injEq .. ▸ heq
        rw [hstore] at hs
        exact Option.noConfusion hs
      · refine ih _ n c s2 hmem2 ?_ hne
        have hpne : templatePath output n ≠ templatePath output hn := by
          intro heq2
          rw [heq2, hs] at hstore
          exact Option.noConfusion hstore
        simp only [hpne, if_false, reduceIte]
        exact hstore

/-- C9: dumping built-in templates never overwrites an existing file — an
existing target identical to the built-in's serialization is left exactly
as it is (a per-file no-op; with that template as the sole target the dump
is a complete no-op returning no error), and an existing target with
different content makes the dump fail with `TemplateContentMismatch` while
that file keeps its old content. -/
theorem C9_dump_templates :
    (∀ (store : String → Option String) (output : String)
      (targets : Option (List String)) (p c : String),
      store p = some c →
      ((dump_templates store output targets).1) p = some c)
    ∧ (∀ (store : String → Option String) (output : String)
      (targets : Option (List String)) (n : String) (c : Json),
      (n, c) ∈ selectedTemplates targets →
      store (templatePath output n) = some (templateContentStr c) →
      ((dump_templates store output targets).1) (templatePath output n) =
        some (templateContentStr c))
    ∧ (∀ (store : String → Option String) (output : String)
      (targets : Option (List String)) (n : String) (c : Json) (s2 : String),
      (n, c) ∈ selectedTemplates targets →
      store (templatePath output n) = some s2 →
      s2 ≠ templateContentStr c →
      (∃ n2 p2, (dump_templates store output targets).2 =
        some (RenderError.contentMismatch n2 p2))
      ∧ ((dump_templates store output targets).1) (templatePath output n) =
        some s2)
    ∧ (∀ (store : String → Option String) (output : String) (n : String)
      (c : Json),
      (n, c) ∈ TEMPLATES →
      store (templatePath output n) = some (templateContentStr c) →
      dump_templates store output (some [n]) = (store, none)) := by
  refine ⟨?_, ?_, ?_, ?_⟩
  · intro store output targets p c h
    exact dump_loop_preserves output (selectedTemplates targets) store p c h
  · intro store output targets n c hmem h
    exact dump_loop_preserves output (selectedTemplates targets) store _ _ h
  · intro store output targets n c s2 hmem h hne
    exact ⟨dump_loop_mismatch output (selectedTemplates targets) store n c s2
        hmem h hne,
      dump_loop_preserves output (selectedTemplates targets) store _ _ h⟩
  · intro store output n c hmem h
    have hsel : selectedTemplates (some [n]) = [(n, c)] := by
      simp only [TEMPLATES, List.mem_cons, List.not_mem_nil, or_false,
        Prod.mk.injEq] at hmem
      rcases hmem with h1 | h1 | h1 | h1 | h1 | h1 | h1 | h1 <;>
        obtain ⟨rfl, rfl⟩ := h1 <;> rfl
    unfold dump_templates
    rw [hsel]
    simp only [dump_loop]
    rw [h]
    dsimp only
    rw [if_pos rfl]

/-- C9 witnessed on the `linear` built-in: an identical existing file keeps
its content and a single-target dump is a complete no-op; a modified
existing file produces `TemplateContentMismatch` and keeps its content. -/
theorem C9_dump_templates_witness :
    (dump_templates
        (fun q => if q = templatePath "out" "linear" then
          some (templateContentStr linear_content) else none)
        "out" (some ["linear"]) =
      ((fun q => if q = templatePath "out" "linear" then
          some (templateContentStr linear_content) else none), none))
    ∧ (∃ n2 p2,
        (dump_templates
          (fun q => if q = templatePath "out" "linear" then some "junk"
            else none) "out" (some ["linear"])).2 =
        some (RenderError.contentMismatch n2 p2))
    ∧ ((dump_templates
          (fun q => if q = templatePath "out" "linear" then some "junk"
            else none) "out" (some ["linear"])).1)
        (templatePath "out" "linear") = some "junk" := by
  have hmem : ("linear", linear_content) ∈ TEMPLATES := by
    simp [TEMPLATES]
  have hmem2 : ("linear", linear_content) ∈
      selectedTemplates (some ["linear"]) := by
    rw [show selectedTemplates (some ["linear"]) =
      [("linear", linear_content)] from rfl]
    exact List.mem_singleton.mpr rfl
  refine ⟨?_, ?_, ?_⟩
  · exact C9_dump_templates.2.2.2 _ "out" "linear" linear_content hmem
      (by rw [if_pos rfl])
  · exact (C9_dump_templates.2.2.1 _ "out" (some ["linear"]) "linear"
      linear_content "junk" hmem2 (by rw [if_pos rfl]) (by decide)).1
  · exact (C9_dump_templates.2.2.1 _ "out" (some ["linear"]) "linear"
      linear_content "junk" hmem2 (by rw [if_pos rfl]) (by decide)).2

end DvcRender
